import Mathlib

/-!
# Verification of the L1/L2 orchestrator (`orcas/l1l2.go`)

The orchestrator drives two tier handlers (L1, L2), a responder and a
process-wide counter registry.  All three are external collaborators, so the
embedding records every interaction with them in an ordered trace of events
and takes their answers as parameters.

* Go's `error` interface is `GoError := Option Err`; `none` is `nil`.
* A tier handler / responder is a record of functions giving the value each
  call returns.
* A method of `L1L2Orca` is a computation in `Exec`, a state monad over the
  trace; `run` starts it on the empty trace and yields the returned error
  together with the trace.
* The two channels returned by `l1.Get` are the finite sequences of values
  sent on them before the producer closes them; the choice made by `select`
  when both channels are ready is read from a schedule.
-/

namespace orcas

/-! ## Data model (package `common`) -/

/-- Non-nil values of the `error` interface.  `ErrKeyNotFound`, `ErrKeyExists`
and `ErrUnknownCmd` are the sentinels of package `common`; `backend n` stands
for any other error value. -/
inductive Err where
  | ErrKeyNotFound
  | ErrKeyExists
  | ErrUnknownCmd
  | backend (id : Nat)
  deriving DecidableEq, Repr

/-- A value of Go's `error` interface: `none` is `nil`. -/
abbrev GoError := Option Err

/-- The request of `Set`, `Add` and `Replace` (`common.SetRequest`). -/
structure SetRequest where
  Key : List Nat
  Data : List Nat
  Flags : Nat
  Exptime : Nat
  Opaque : Nat
  Quiet : Bool
  deriving DecidableEq, Repr

/-- The request of `Delete` (`common.DeleteRequest`). -/
structure DeleteRequest where
  Key : List Nat
  Opaque : Nat
  deriving DecidableEq, Repr

/-- The request of `Touch` (`common.TouchRequest`). -/
structure TouchRequest where
  Key : List Nat
  Exptime : Nat
  Opaque : Nat
  deriving DecidableEq, Repr

/-- The request of a batched `Get` (`common.GetRequest`). -/
structure GetRequest where
  Keys : List (List Nat)
  Opaques : List Nat
  Quiet : List Bool
  NoopOpaque : Nat
  NoopEnd : Bool
  deriving DecidableEq, Repr

/-- The request of `Gat` (`common.GATRequest`). -/
structure GATRequest where
  Key : List Nat
  Exptime : Nat
  Opaque : Nat
  deriving DecidableEq, Repr

/-- One response of `Get` / `GAT` (`common.GetResponse`). -/
structure GetResponse where
  Miss : Bool
  Quiet : Bool
  Opaque : Nat
  Flags : Nat
  Key : List Nat
  Data : List Nat
  deriving DecidableEq, Repr

/-! ## Counters (package `metrics`) -/

/-- The counters touched by `l1l2.go`, under the names of the Go constants. -/
inductive Metric where
  | MetricCmdSet | MetricCmdSetL1 | MetricCmdSetL2
  | MetricCmdSetSuccess | MetricCmdSetSuccessL1 | MetricCmdSetSuccessL2
  | MetricCmdSetErrors | MetricCmdSetErrorsL1 | MetricCmdSetErrorsL2
  | MetricCmdAdd | MetricCmdAddL1 | MetricCmdAddL2
  | MetricCmdAddStored | MetricCmdAddStoredL1 | MetricCmdAddStoredL2
  | MetricCmdAddNotStored | MetricCmdAddNotStoredL1 | MetricCmdAddNotStoredL2
  | MetricCmdAddErrors | MetricCmdAddErrorsL1 | MetricCmdAddErrorsL2
  | MetricCmdReplace | MetricCmdReplaceL1 | MetricCmdReplaceL2
  | MetricCmdReplaceStored | MetricCmdReplaceStoredL1 | MetricCmdReplaceStoredL2
  | MetricCmdReplaceNotStored | MetricCmdReplaceNotStoredL1 | MetricCmdReplaceNotStoredL2
  | MetricCmdReplaceErrors | MetricCmdReplaceErrorsL1 | MetricCmdReplaceErrorsL2
  | MetricCmdDelete | MetricCmdDeleteL1 | MetricCmdDeleteL2
  | MetricCmdDeleteHits | MetricCmdDeleteHitsL1 | MetricCmdDeleteHitsL2
  | MetricCmdDeleteMisses | MetricCmdDeleteMissesL1 | MetricCmdDeleteMissesL2
  | MetricCmdDeleteErrors | MetricCmdDeleteErrorsL1 | MetricCmdDeleteErrorsL2
  | MetricCmdTouch | MetricCmdTouchL1
  | MetricCmdTouchHits | MetricCmdTouchHitsL1
  | MetricCmdTouchMisses | MetricCmdTouchMissesL1
  | MetricCmdGet | MetricCmdGetL1
  | MetricCmdGetKeys | MetricCmdGetKeysL1
  | MetricCmdGetHits | MetricCmdGetHitsL1
  | MetricCmdGetMisses | MetricCmdGetMissesL1
  | MetricCmdGetErrors | MetricCmdGetErrorsL1
  | MetricCmdGat | MetricCmdGatL1
  | MetricCmdGatHits | MetricCmdGatHitsL1
  | MetricCmdGatMisses | MetricCmdGatMissesL1
  | MetricCmdGatErrors | MetricCmdGatErrorsL1
  | MetricCmdNoop | MetricCmdQuit | MetricCmdVersion | MetricCmdUnknown
  deriving DecidableEq, Repr

export Metric (MetricCmdSet MetricCmdSetL1 MetricCmdSetL2
  MetricCmdSetSuccess MetricCmdSetSuccessL1 MetricCmdSetSuccessL2
  MetricCmdSetErrors MetricCmdSetErrorsL1 MetricCmdSetErrorsL2
  MetricCmdAdd MetricCmdAddL1 MetricCmdAddL2
  MetricCmdAddStored MetricCmdAddStoredL1 MetricCmdAddStoredL2
  MetricCmdAddNotStored MetricCmdAddNotStoredL1 MetricCmdAddNotStoredL2
  MetricCmdAddErrors MetricCmdAddErrorsL1 MetricCmdAddErrorsL2
  MetricCmdReplace MetricCmdReplaceL1 MetricCmdReplaceL2
  MetricCmdReplaceStored MetricCmdReplaceStoredL1 MetricCmdReplaceStoredL2
  MetricCmdReplaceNotStored MetricCmdReplaceNotStoredL1 MetricCmdReplaceNotStoredL2
  MetricCmdReplaceErrors MetricCmdReplaceErrorsL1 MetricCmdReplaceErrorsL2
  MetricCmdDelete MetricCmdDeleteL1 MetricCmdDeleteL2
  MetricCmdDeleteHits MetricCmdDeleteHitsL1 MetricCmdDeleteHitsL2
  MetricCmdDeleteMisses MetricCmdDeleteMissesL1 MetricCmdDeleteMissesL2
  MetricCmdDeleteErrors MetricCmdDeleteErrorsL1 MetricCmdDeleteErrorsL2
  MetricCmdTouch MetricCmdTouchL1
  MetricCmdTouchHits MetricCmdTouchHitsL1
  MetricCmdTouchMisses MetricCmdTouchMissesL1
  MetricCmdGet MetricCmdGetL1
  MetricCmdGetKeys MetricCmdGetKeysL1
  MetricCmdGetHits MetricCmdGetHitsL1
  MetricCmdGetMisses MetricCmdGetMissesL1
  MetricCmdGetErrors MetricCmdGetErrorsL1
  MetricCmdGat MetricCmdGatL1
  MetricCmdGatHits MetricCmdGatHitsL1
  MetricCmdGatMisses MetricCmdGatMissesL1
  MetricCmdGatErrors MetricCmdGatErrorsL1
  MetricCmdNoop MetricCmdQuit MetricCmdVersion MetricCmdUnknown)

/-! ## Collaborators and the trace of interactions -/

/-- A call of a tier handler operation (`handlers.Handler`). -/
inductive TierCall where
  | Set (req : SetRequest)
  | Add (req : SetRequest)
  | Replace (req : SetRequest)
  | Delete (req : DeleteRequest)
  | Touch (req : TouchRequest)
  | Get (req : GetRequest)
  | GAT (req : GATRequest)
  deriving DecidableEq, Repr

/-- A call of a responder operation (`common.Responder`). -/
inductive ResCall where
  | Set (opq : Nat) (quiet : Bool)
  | Add (opq : Nat) (quiet : Bool)
  | Replace (opq : Nat) (quiet : Bool)
  | Delete (opq : Nat)
  | Touch (opq : Nat)
  | Get (response : GetResponse)
  | GetEnd (noopOpaque : Nat) (noopEnd : Bool)
  | GAT (response : GetResponse)
  | Noop (opq : Nat)
  | Quit (opq : Nat) (quiet : Bool)
  | Version (opq : Nat)
  deriving DecidableEq, Repr

/-- One observable interaction of the orchestrator with its collaborators. -/
inductive Event where
  | inc (m : Metric) (n : Nat)
  | l1 (c : TierCall)
  | l2 (c : TierCall)
  | res (c : ResCall)
  deriving DecidableEq, Repr

/-- The values a tier handler returns.  For `Get` these are the values sent on
the result channel and on the error channel before each is closed: both
channels are taken to be non-nil and to be closed by the producer after
finitely many values.  A value on the error channel is a Go `error` and so may
be `nil`. -/
structure Handler where
  Set : SetRequest → GoError
  Add : SetRequest → GoError
  Replace : SetRequest → GoError
  Delete : DeleteRequest → GoError
  Touch : TouchRequest → GoError
  Get : GetRequest → List GetResponse × List GoError
  GAT : GATRequest → GetResponse × GoError

/-- The values the responder returns. -/
structure Responder where
  Set : Nat → Bool → GoError
  Add : Nat → Bool → GoError
  Replace : Nat → Bool → GoError
  Delete : Nat → GoError
  Touch : Nat → GoError
  Get : GetResponse → GoError
  GetEnd : Nat → Bool → GoError
  GAT : GetResponse → GoError
  Noop : Nat → GoError
  Quit : Nat → Bool → GoError
  Version : Nat → GoError

/-- The orchestrator: `type L1L2Orca struct { l1, l2 handlers.Handler; res common.Responder }`. -/
structure L1L2Orca where
  l1 : Handler
  l2 : Handler
  res : Responder

/-- Computations that append to the trace of interactions. -/
abbrev Exec (α : Type) := List Event → α × List Event

/-- Sequencing of two computations. -/
@[reducible] def Exec.bind {α β : Type} (x : Exec α) (f : α → Exec β) : Exec β :=
  fun t => f (x t).1 (x t).2

instance : Monad Exec where
  pure a := fun t => (a, t)
  bind := Exec.bind

/-- Record one interaction and yield the value it returns. -/
def call {α : Type} (e : Event) (a : α) : Exec α := fun t => (a, t ++ [e])

/-- Run a method on the empty trace. -/
def run {α : Type} (x : Exec α) : α × List Event := x []

/-- `metrics.IncCounter`. -/
def IncCounter (m : Metric) : Exec Unit := call (Event.inc m 1) ()

/-- `metrics.IncCounterBy`. -/
def IncCounterBy (m : Metric) (n : Nat) : Exec Unit := call (Event.inc m n) ()

/-! ## Observations on a trace -/

/-- The amount by which counter `m` has been increased in trace `t`. -/
def counter (m : Metric) : List Event → Nat
  | [] => 0
  | Event.inc m' n :: t => (if m' = m then n else 0) + counter m t
  | _ :: t => counter m t

/-- The calls made to L1, in order. -/
def l1Calls : List Event → List TierCall
  | [] => []
  | Event.l1 c :: t => c :: l1Calls t
  | _ :: t => l1Calls t

/-- The calls made to L2, in order. -/
def l2Calls : List Event → List TierCall
  | [] => []
  | Event.l2 c :: t => c :: l2Calls t
  | _ :: t => l2Calls t

/-- The calls made to the responder, in order. -/
def resCalls : List Event → List ResCall
  | [] => []
  | Event.res c :: t => c :: resCalls t
  | _ :: t => resCalls t

/-- The responses passed to `Responder.Get`, in order. -/
def getCalls : List ResCall → List GetResponse
  | [] => []
  | ResCall.Get r :: cs => r :: getCalls cs
  | _ :: cs => getCalls cs

/-- The calls made to the tiers and to the responder, in order: the trace
without its counter increments. -/
def calls : List Event → List Event
  | [] => []
  | Event.inc _ _ :: t => calls t
  | e :: t => e :: calls t

/-! ## The write path -/

/-- `func (l *L1L2Orca) Set(req common.SetRequest) error`. -/
def L1L2Orca.Set (l : L1L2Orca) (req : SetRequest) : Exec GoError := do
  IncCounter MetricCmdSet
  -- Try L2 first
  IncCounter MetricCmdSetL2
  let err ← call (Event.l2 (TierCall.Set req)) (l.l2.Set req)
  -- If we fail to set in L2, don't set in L1
  if err ≠ none then
    IncCounter MetricCmdSetErrorsL2
    IncCounter MetricCmdSetErrors
    return err
  IncCounter MetricCmdSetSuccessL2
  -- Now set in L1
  IncCounter MetricCmdSetL1
  let err ← call (Event.l1 (TierCall.Set req)) (l.l1.Set req)
  if err ≠ none then
    IncCounter MetricCmdSetErrorsL1
    IncCounter MetricCmdSetErrors
    return err
  IncCounter MetricCmdSetSuccessL1
  IncCounter MetricCmdSetSuccess
  call (Event.res (ResCall.Set req.Opaque req.Quiet)) (l.res.Set req.Opaque req.Quiet)

/-- `func (l *L1L2Orca) Add(req common.SetRequest) error`. -/
def L1L2Orca.Add (l : L1L2Orca) (req : SetRequest) : Exec GoError := do
  IncCounter MetricCmdAdd
  -- Add in L2 first, since it has the larger state
  IncCounter MetricCmdAddL2
  let err ← call (Event.l2 (TierCall.Add req)) (l.l2.Add req)
  if err ≠ none then
    -- A key already existing is not an error per se
    if err = some Err.ErrKeyExists then
      IncCounter MetricCmdAddNotStoredL2
      IncCounter MetricCmdAddNotStored
      return err
    -- otherwise we have a real error on our hands
    IncCounter MetricCmdAddErrorsL2
    IncCounter MetricCmdAddErrors
    return err
  IncCounter MetricCmdAddStoredL2
  -- Now on to L1
  IncCounter MetricCmdAddL1
  let err ← call (Event.l1 (TierCall.Add req)) (l.l1.Add req)
  if err ≠ none then
    if err = some Err.ErrKeyExists then
      IncCounter MetricCmdAddNotStoredL1
      IncCounter MetricCmdAddNotStored
      return err
    IncCounter MetricCmdAddErrorsL1
    IncCounter MetricCmdAddErrors
    return err
  IncCounter MetricCmdAddStoredL1
  IncCounter MetricCmdAddStored
  call (Event.res (ResCall.Add req.Opaque req.Quiet)) (l.res.Add req.Opaque req.Quiet)

/-- `func (l *L1L2Orca) Replace(req common.SetRequest) error`. -/
def L1L2Orca.Replace (l : L1L2Orca) (req : SetRequest) : Exec GoError := do
  IncCounter MetricCmdReplace
  IncCounter MetricCmdReplaceL2
  let err ← call (Event.l2 (TierCall.Replace req)) (l.l2.Replace req)
  if err ≠ none then
    if err = some Err.ErrKeyNotFound then
      IncCounter MetricCmdReplaceNotStoredL2
      IncCounter MetricCmdReplaceNotStored
      return err
    -- otherwise we have a real error on our hands
    IncCounter MetricCmdReplaceErrorsL2
    IncCounter MetricCmdReplaceErrors
    return err
  IncCounter MetricCmdReplaceStoredL2
  -- Now on to L1
  IncCounter MetricCmdReplaceL1
  let err ← call (Event.l1 (TierCall.Replace req)) (l.l1.Replace req)
  if err ≠ none then
    if err = some Err.ErrKeyNotFound then
      IncCounter MetricCmdReplaceNotStoredL1
      IncCounter MetricCmdReplaceNotStored
      return err
    IncCounter MetricCmdReplaceErrorsL1
    IncCounter MetricCmdReplaceErrors
    return err
  IncCounter MetricCmdReplaceStoredL1
  IncCounter MetricCmdReplaceStored
  call (Event.res (ResCall.Replace req.Opaque req.Quiet)) (l.res.Replace req.Opaque req.Quiet)

/-- `func (l *L1L2Orca) Delete(req common.DeleteRequest) error`. -/
def L1L2Orca.Delete (l : L1L2Orca) (req : DeleteRequest) : Exec GoError := do
  IncCounter MetricCmdDelete
  -- Try L2 first
  IncCounter MetricCmdDeleteL2
  let err ← call (Event.l2 (TierCall.Delete req)) (l.l2.Delete req)
  if err ≠ none then
    -- On a delete miss in L2 don't bother deleting in L1
    if err = some Err.ErrKeyNotFound then
      IncCounter MetricCmdDeleteMissesL2
      IncCounter MetricCmdDeleteMisses
      return err
    -- If we fail to delete in L2, don't delete in L1
    IncCounter MetricCmdDeleteErrorsL2
    IncCounter MetricCmdDeleteErrors
    return err
  IncCounter MetricCmdDeleteHitsL2
  -- Now delete in L1
  IncCounter MetricCmdDeleteL1
  let err ← call (Event.l1 (TierCall.Delete req)) (l.l1.Delete req)
  if err ≠ none then
    if err = some Err.ErrKeyNotFound then
      IncCounter MetricCmdDeleteMissesL1
      IncCounter MetricCmdDeleteMisses
      -- disregard the miss, don't return the error
      return none
    IncCounter MetricCmdDeleteErrorsL1
    IncCounter MetricCmdDeleteErrors
    return err
  IncCounter MetricCmdDeleteHitsL1
  IncCounter MetricCmdDeleteHits
  call (Event.res (ResCall.Delete req.Opaque)) (l.res.Delete req.Opaque)

/-! ## The read path -/

/-- `func (l *L1L2Orca) Touch(req common.TouchRequest) error`. -/
def L1L2Orca.Touch (l : L1L2Orca) (req : TouchRequest) : Exec GoError := do
  IncCounter MetricCmdTouch
  IncCounter MetricCmdTouchL1
  let err ← call (Event.l1 (TierCall.Touch req)) (l.l1.Touch req)
  if err = none then
    IncCounter MetricCmdTouchHitsL1
    IncCounter MetricCmdTouchHits
    let _ ← call (Event.res (ResCall.Touch req.Opaque)) (l.res.Touch req.Opaque)
  else if err = some Err.ErrKeyNotFound then
    IncCounter MetricCmdTouchMissesL1
    IncCounter MetricCmdTouchMisses
  else
    IncCounter MetricCmdTouchMissesL1
    IncCounter MetricCmdTouchMisses
  return err

/-- The variables of the receive loop of `Get`.  A channel variable is `none`
once it has been set to `nil`; otherwise it holds the values still to be
received before the channel is observed closed. -/
structure GetLoop where
  resChan : Option (List GetResponse)
  errChan : Option (List GoError)
  err : GoError
  deriving DecidableEq, Repr

/-- The arm `case res, ok := <-resChan` on a channel with pending values `q`. -/
def recvRes (l : L1L2Orca) (s : GetLoop) (q : List GetResponse) : Exec GetLoop :=
  match q with
  | [] => pure { s with resChan := none }
  | response :: q' => do
    if response.Miss then
      IncCounter MetricCmdGetMissesL1
      IncCounter MetricCmdGetMisses
    else
      IncCounter MetricCmdGetHits
      IncCounter MetricCmdGetHitsL1
    let _ ← call (Event.res (ResCall.Get response)) (l.res.Get response)
    pure { s with resChan := some q' }

/-- The arm `case getErr, ok := <-errChan` on a channel with pending values `q`. -/
def recvErr (s : GetLoop) (q : List GoError) : Exec GetLoop :=
  match q with
  | [] => pure { s with errChan := none }
  | getErr :: q' => do
    IncCounter MetricCmdGetErrors
    IncCounter MetricCmdGetErrorsL1
    pure { s with errChan := some q', err := getErr }

/-- One execution of the `select` statement.  A `nil` channel is never
selected; when both channels can be received from, `pickRes` says which arm
runs.  With both channels `nil` the statement blocks forever (`none`). -/
def selectStep (l : L1L2Orca) (pickRes : Bool) (s : GetLoop) : Exec (Option GetLoop) :=
  match s.resChan, s.errChan with
  | some rq, some eq => do
    if pickRes then return some (← recvRes l s rq) else return some (← recvErr s eq)
  | some rq, none => do return some (← recvRes l s rq)
  | none, some eq => do return some (← recvErr s eq)
  | none, none => pure none

/-- The loop `for { select { ... }; if resChan == nil && errChan == nil { break } }`,
run for at most `fuel` iterations; the `i`-th iteration takes its choice from
the `i`-th entry of `sched` (the result arm once the schedule is used up).
The value is `none` when the loop has not finished within `fuel` iterations or
blocks forever. -/
def getLoop (l : L1L2Orca) : Nat → List Bool → GetLoop → Exec (Option GetLoop)
  | 0, _, _ => pure none
  | fuel + 1, sched, s => do
    match ← selectStep l (sched.headD true) s with
    | none => pure none
    | some s' =>
      if s'.resChan = none ∧ s'.errChan = none then
        pure (some s')
      else
        getLoop l fuel sched.tail s'

/-- `func (l *L1L2Orca) Get(req common.GetRequest) error`, with the schedule of
the `select` and a bound on the number of loop iterations.  The value is
`some err` when the method returns `err`, and `none` when the loop has not
finished within `fuel` iterations. -/
def L1L2Orca.Get (l : L1L2Orca) (sched : List Bool) (fuel : Nat) (req : GetRequest) :
    Exec (Option GoError) := do
  IncCounter MetricCmdGet
  IncCounterBy MetricCmdGetKeys req.Keys.length
  IncCounter MetricCmdGetL1
  IncCounterBy MetricCmdGetKeysL1 req.Keys.length
  let (resChan, errChan) ← call (Event.l1 (TierCall.Get req)) (l.l1.Get req)
  match ← getLoop l fuel sched { resChan := some resChan, errChan := some errChan, err := none } with
  | none => pure none
  | some s =>
    if s.err = none then
      let _ ← call (Event.res (ResCall.GetEnd req.NoopOpaque req.NoopEnd))
        (l.res.GetEnd req.NoopOpaque req.NoopEnd)
    return some s.err

/-- `func (l *L1L2Orca) Gat(req common.GATRequest) error`. -/
def L1L2Orca.Gat (l : L1L2Orca) (req : GATRequest) : Exec GoError := do
  IncCounter MetricCmdGat
  IncCounter MetricCmdGatL1
  let (response, err) ← call (Event.l1 (TierCall.GAT req)) (l.l1.GAT req)
  if err = none then
    if response.Miss then
      IncCounter MetricCmdGatMissesL1
      IncCounter MetricCmdGatMisses
    else
      IncCounter MetricCmdGatHits
      IncCounter MetricCmdGatHitsL1
    let _ ← call (Event.res (ResCall.GAT response)) (l.res.GAT response)
  else
    IncCounter MetricCmdGatErrors
    IncCounter MetricCmdGatErrorsL1
  return err

/-! ## Measures of the receive loop -/

/-- Number of receives still to be made on a channel: its pending values and
the close; none on a `nil` channel. -/
def pending {α : Type} : Option (List α) → Nat
  | none => 0
  | some q => q.length + 1

/-- Number of receives still to be made by the loop. -/
def remaining (s : GetLoop) : Nat := pending s.resChan + pending s.errChan

/-- The responses not yet received. -/
def pendingRes (s : GetLoop) : List GetResponse := s.resChan.getD []

/-- The last value of `es`, or `e` when `es` is empty. -/
def lastErr : GoError → List GoError → GoError
  | e, [] => e
  | _, x :: q => lastErr x q

/-- The value `err` holds once every pending error value has been received. -/
def finalErr (s : GetLoop) : GoError := lastErr s.err (s.errChan.getD [])

/-- The interactions of the `select` arm that receives the response `r`. -/
def resEvents (r : GetResponse) : List Event :=
  (if r.Miss then [Event.inc MetricCmdGetMissesL1 1, Event.inc MetricCmdGetMisses 1]
    else [Event.inc MetricCmdGetHits 1, Event.inc MetricCmdGetHitsL1 1]) ++
    [Event.res (ResCall.Get r)]

/-- The interactions of the `select` arm that receives an error value. -/
def errEvents : List Event :=
  [Event.inc MetricCmdGetErrors 1, Event.inc MetricCmdGetErrorsL1 1]

/-- The amount by which receiving the responses `rs` increases counter `m`. -/
def resCount (m : Metric) : List GetResponse → Nat
  | [] => 0
  | r :: rs => counter m (resEvents r) + resCount m rs

/-- The amount by which the loop has still to increase counter `m`. -/
def pendingCount (m : Metric) (s : GetLoop) : Nat :=
  resCount m (pendingRes s) + (s.errChan.getD []).length * counter m errEvents

/-! ## Replace as a renaming of Add -/

/-- The renaming of error values: the sentinels `ErrKeyExists` and
`ErrKeyNotFound` are exchanged, every other value is kept. -/
def renameErr : GoError → GoError
  | some Err.ErrKeyExists => some Err.ErrKeyNotFound
  | some Err.ErrKeyNotFound => some Err.ErrKeyExists
  | e => e

/-- The renaming of counters: each `cmd_add` counter becomes the corresponding
`cmd_replace` counter. -/
def renameMetric : Metric → Metric
  | Metric.MetricCmdAdd => Metric.MetricCmdReplace
  | Metric.MetricCmdAddL1 => Metric.MetricCmdReplaceL1
  | Metric.MetricCmdAddL2 => Metric.MetricCmdReplaceL2
  | Metric.MetricCmdAddStored => Metric.MetricCmdReplaceStored
  | Metric.MetricCmdAddStoredL1 => Metric.MetricCmdReplaceStoredL1
  | Metric.MetricCmdAddStoredL2 => Metric.MetricCmdReplaceStoredL2
  | Metric.MetricCmdAddNotStored => Metric.MetricCmdReplaceNotStored
  | Metric.MetricCmdAddNotStoredL1 => Metric.MetricCmdReplaceNotStoredL1
  | Metric.MetricCmdAddNotStoredL2 => Metric.MetricCmdReplaceNotStoredL2
  | Metric.MetricCmdAddErrors => Metric.MetricCmdReplaceErrors
  | Metric.MetricCmdAddErrorsL1 => Metric.MetricCmdReplaceErrorsL1
  | Metric.MetricCmdAddErrorsL2 => Metric.MetricCmdReplaceErrorsL2
  | m => m

/-- The renaming of interactions: the tier operation `Add` becomes `Replace`,
`Responder.Add` becomes `Responder.Replace`, counters are renamed. -/
def renameEvent : Event → Event
  | Event.inc m n => Event.inc (renameMetric m) n
  | Event.l1 (TierCall.Add r) => Event.l1 (TierCall.Replace r)
  | Event.l2 (TierCall.Add r) => Event.l2 (TierCall.Replace r)
  | Event.res (ResCall.Add o q) => Event.res (ResCall.Replace o q)
  | e => e

/-- The handler whose `Replace` returns the renamed result of `h.Add`. -/
def renameHandler (h : Handler) : Handler :=
  { h with Replace := fun r => renameErr (h.Add r) }

/-- The responder whose `Replace` returns the renamed result of `r.Add`. -/
def renameResponder (r : Responder) : Responder :=
  { r with Replace := fun o q => renameErr (r.Add o q) }

/-- The orchestrator over the renamed collaborators. -/
def renameOrca (l : L1L2Orca) : L1L2Orca :=
  ⟨renameHandler l.l1, renameHandler l.l2, renameResponder l.res⟩

/-- Replace as the specification words it, "mirrors Add": the run of `Add`
with its return value and every interaction renamed. -/
def AddRenamed (l : L1L2Orca) (req : SetRequest) : GoError × List Event :=
  (renameErr (run (l.Add req)).1, (run (l.Add req)).2.map renameEvent)

/-! ## Sample collaborators and requests -/

/-- A handler whose every call succeeds and whose `Get` streams are empty. -/
def okHandler : Handler where
  Set _ := none
  Add _ := none
  Replace _ := none
  Delete _ := none
  Touch _ := none
  Get _ := ([], [])
  GAT _ := (⟨false, false, 0, 0, [], []⟩, none)

/-- A responder whose every call succeeds. -/
def okResponder : Responder where
  Set _ _ := none
  Add _ _ := none
  Replace _ _ := none
  Delete _ := none
  Touch _ := none
  Get _ := none
  GetEnd _ _ := none
  GAT _ := none
  Noop _ := none
  Quit _ _ := none
  Version _ := none

/-- A handler whose `Set`, `Add`, `Replace`, `Delete`, `Touch` and `GAT` all
return `e` and whose `Get` streams carry `rs` and `es`. -/
def constHandler (e : GoError) (rs : List GetResponse) (es : List GoError) : Handler where
  Set _ := e
  Add _ := e
  Replace _ := e
  Delete _ := e
  Touch _ := e
  Get _ := (rs, es)
  GAT _ := (⟨false, false, 0, 0, [], []⟩, e)

/-- A sample write request for key `a` with value `v1`. -/
def reqA : SetRequest := ⟨[97], [118, 49], 0, 0, 7, false⟩

/-- A sample delete request for key `a`. -/
def delA : DeleteRequest := ⟨[97], 9⟩

/-- A sample batched read of the keys `a` and `b`. -/
def getAB : GetRequest := ⟨[[97], [98]], [1, 2], [false, false], 3, true⟩

/-- A hit for key `a`. -/
def hitA : GetResponse := ⟨false, false, 1, 0, [97], [118, 49]⟩

/-- A miss for key `b`. -/
def missB : GetResponse := ⟨true, false, 2, 0, [98], []⟩

/-- A sample touch request for key `a`. -/
def touchA : TouchRequest := ⟨[97], 60, 11⟩

/-- A sample get-and-touch request for key `a`. -/
def gatA : GATRequest := ⟨[97], 60, 12⟩

/-! ## Set, Add, Replace, Delete: the L2-first protocol -/

/-- C1: when `L2.Set` returns a non-nil error `e`, `Set` returns exactly `e`,
makes no L1 call and no Responder call, and increments `MetricCmdSetErrorsL2`
and `MetricCmdSetErrors` once each. -/
theorem Set_l2_error (l : L1L2Orca) (req : SetRequest) (e : Err)
    (h : l.l2.Set req = some e) :
    (run (l.Set req)).1 = some e ∧
    l1Calls (run (l.Set req)).2 = [] ∧
    resCalls (run (l.Set req)).2 = [] ∧
    counter MetricCmdSetErrorsL2 (run (l.Set req)).2 = 1 ∧
    counter MetricCmdSetErrors (run (l.Set req)).2 = 1 := by
  simp [run, L1L2Orca.Set, h, call, IncCounter, bind, Exec.bind, pure, l1Calls, resCalls,
    counter]

/-- Witness of C1: L2 fails with a backend error on a working L1. -/
theorem Set_l2_error_witness :
    (constHandler (some (Err.backend 1)) [] []).Set reqA = some (Err.backend 1) ∧
    ((run (L1L2Orca.Set ⟨okHandler, constHandler (some (Err.backend 1)) [] [], okResponder⟩
        reqA)).1 = some (Err.backend 1) ∧
      l1Calls (run (L1L2Orca.Set ⟨okHandler, constHandler (some (Err.backend 1)) [] [],
        okResponder⟩ reqA)).2 = [] ∧
      resCalls (run (L1L2Orca.Set ⟨okHandler, constHandler (some (Err.backend 1)) [] [],
        okResponder⟩ reqA)).2 = [] ∧
      counter MetricCmdSetErrorsL2 (run (L1L2Orca.Set ⟨okHandler,
        constHandler (some (Err.backend 1)) [] [], okResponder⟩ reqA)).2 = 1 ∧
      counter MetricCmdSetErrors (run (L1L2Orca.Set ⟨okHandler,
        constHandler (some (Err.backend 1)) [] [], okResponder⟩ reqA)).2 = 1) :=
  ⟨rfl, Set_l2_error ⟨okHandler, constHandler (some (Err.backend 1)) [] [], okResponder⟩ reqA
    (Err.backend 1) rfl⟩

/-- C2: when `L2.Delete` returns nil and `L1.Delete` returns `ErrKeyNotFound`,
`Delete` returns nil. -/
theorem Delete_l1_miss_returns_nil (l : L1L2Orca) (req : DeleteRequest)
    (h2 : l.l2.Delete req = none) (h1 : l.l1.Delete req = some Err.ErrKeyNotFound) :
    (run (l.Delete req)).1 = none := by
  simp [run, L1L2Orca.Delete, h1, h2, call, IncCounter, bind, Exec.bind, pure]

/-- Witness of C2: L2 deletes, L1 reports key not found. -/
theorem Delete_l1_miss_returns_nil_witness :
    okHandler.Delete delA = none ∧
    (constHandler (some Err.ErrKeyNotFound) [] []).Delete delA = some Err.ErrKeyNotFound ∧
    (run (L1L2Orca.Delete ⟨constHandler (some Err.ErrKeyNotFound) [] [], okHandler,
      okResponder⟩ delA)).1 = none :=
  ⟨rfl, rfl, Delete_l1_miss_returns_nil
    ⟨constHandler (some Err.ErrKeyNotFound) [] [], okHandler, okResponder⟩ delA rfl rfl⟩

/-- C3, as stated, fails: with L2 deleting and L1 reporting key not found, it is
not the case that `MetricCmdDeleteHitsL1` is incremented, no delete-miss counter
is incremented and `Responder.Delete` is called once.  The run increments
`MetricCmdDeleteMissesL1` and `MetricCmdDeleteMisses`, leaves
`MetricCmdDeleteHitsL1` untouched and makes no Responder call. -/
theorem Delete_l1_miss_hit_counterexample :
    okHandler.Delete delA = none ∧
    (constHandler (some Err.ErrKeyNotFound) [] []).Delete delA = some Err.ErrKeyNotFound ∧
    counter MetricCmdDeleteHitsL1 (run (L1L2Orca.Delete
      ⟨constHandler (some Err.ErrKeyNotFound) [] [], okHandler, okResponder⟩ delA)).2 = 0 ∧
    counter MetricCmdDeleteMissesL1 (run (L1L2Orca.Delete
      ⟨constHandler (some Err.ErrKeyNotFound) [] [], okHandler, okResponder⟩ delA)).2 = 1 ∧
    counter MetricCmdDeleteMisses (run (L1L2Orca.Delete
      ⟨constHandler (some Err.ErrKeyNotFound) [] [], okHandler, okResponder⟩ delA)).2 = 1 ∧
    resCalls (run (L1L2Orca.Delete
      ⟨constHandler (some Err.ErrKeyNotFound) [] [], okHandler, okResponder⟩ delA)).2 = [] ∧
    ¬ (1 ≤ counter MetricCmdDeleteHitsL1 (run (L1L2Orca.Delete
          ⟨constHandler (some Err.ErrKeyNotFound) [] [], okHandler, okResponder⟩ delA)).2 ∧
        counter MetricCmdDeleteMissesL1 (run (L1L2Orca.Delete
          ⟨constHandler (some Err.ErrKeyNotFound) [] [], okHandler, okResponder⟩ delA)).2 = 0 ∧
        counter MetricCmdDeleteMisses (run (L1L2Orca.Delete
          ⟨constHandler (some Err.ErrKeyNotFound) [] [], okHandler, okResponder⟩ delA)).2 = 0 ∧
        resCalls (run (L1L2Orca.Delete
          ⟨constHandler (some Err.ErrKeyNotFound) [] [], okHandler, okResponder⟩ delA)).2 =
          [ResCall.Delete delA.Opaque]) := by
  decide

/-- C3, amended: when `L2.Delete` returns nil and `L1.Delete` returns
`ErrKeyNotFound`, the L2 hit and the L1 miss are recorded per tier
(`MetricCmdDeleteHitsL2` and `MetricCmdDeleteMissesL1` incremented once each,
`MetricCmdDeleteHitsL1` not incremented), no delete-error counter is
incremented, and `Delete` returns nil. -/
theorem Delete_l1_miss_per_tier (l : L1L2Orca) (req : DeleteRequest)
    (h2 : l.l2.Delete req = none) (h1 : l.l1.Delete req = some Err.ErrKeyNotFound) :
    (run (l.Delete req)).1 = none ∧
    counter MetricCmdDeleteHitsL2 (run (l.Delete req)).2 = 1 ∧
    counter MetricCmdDeleteMissesL1 (run (l.Delete req)).2 = 1 ∧
    counter MetricCmdDeleteHitsL1 (run (l.Delete req)).2 = 0 ∧
    counter MetricCmdDeleteErrorsL2 (run (l.Delete req)).2 = 0 ∧
    counter MetricCmdDeleteErrorsL1 (run (l.Delete req)).2 = 0 ∧
    counter MetricCmdDeleteErrors (run (l.Delete req)).2 = 0 := by
  simp [run, L1L2Orca.Delete, h1, h2, call, IncCounter, bind, Exec.bind, pure, counter]

/-- Witness of amended C3. -/
theorem Delete_l1_miss_per_tier_witness :
    okHandler.Delete delA = none ∧
    (constHandler (some Err.ErrKeyNotFound) [] []).Delete delA = some Err.ErrKeyNotFound ∧
    ((run (L1L2Orca.Delete ⟨constHandler (some Err.ErrKeyNotFound) [] [], okHandler,
        okResponder⟩ delA)).1 = none ∧
      counter MetricCmdDeleteHitsL2 (run (L1L2Orca.Delete
        ⟨constHandler (some Err.ErrKeyNotFound) [] [], okHandler, okResponder⟩ delA)).2 = 1 ∧
      counter MetricCmdDeleteMissesL1 (run (L1L2Orca.Delete
        ⟨constHandler (some Err.ErrKeyNotFound) [] [], okHandler, okResponder⟩ delA)).2 = 1 ∧
      counter MetricCmdDeleteHitsL1 (run (L1L2Orca.Delete
        ⟨constHandler (some Err.ErrKeyNotFound) [] [], okHandler, okResponder⟩ delA)).2 = 0 ∧
      counter MetricCmdDeleteErrorsL2 (run (L1L2Orca.Delete
        ⟨constHandler (some Err.ErrKeyNotFound) [] [], okHandler, okResponder⟩ delA)).2 = 0 ∧
      counter MetricCmdDeleteErrorsL1 (run (L1L2Orca.Delete
        ⟨constHandler (some Err.ErrKeyNotFound) [] [], okHandler, okResponder⟩ delA)).2 = 0 ∧
      counter MetricCmdDeleteErrors (run (L1L2Orca.Delete
        ⟨constHandler (some Err.ErrKeyNotFound) [] [], okHandler, okResponder⟩ delA)).2 = 0) :=
  ⟨rfl, rfl, Delete_l1_miss_per_tier
    ⟨constHandler (some Err.ErrKeyNotFound) [] [], okHandler, okResponder⟩ delA rfl rfl⟩

/-- C4: when `L2.Delete` returns `ErrKeyNotFound`, `Delete` returns
`ErrKeyNotFound`, makes no L1 call and no Responder call, increments
`MetricCmdDeleteMissesL2` and `MetricCmdDeleteMisses` once each, and increments
no delete-hit and no delete-error counter. -/
theorem Delete_l2_miss (l : L1L2Orca) (req : DeleteRequest)
    (h2 : l.l2.Delete req = some Err.ErrKeyNotFound) :
    (run (l.Delete req)).1 = some Err.ErrKeyNotFound ∧
    l1Calls (run (l.Delete req)).2 = [] ∧
    resCalls (run (l.Delete req)).2 = [] ∧
    counter MetricCmdDeleteMissesL2 (run (l.Delete req)).2 = 1 ∧
    counter MetricCmdDeleteMisses (run (l.Delete req)).2 = 1 ∧
    counter MetricCmdDeleteHitsL2 (run (l.Delete req)).2 = 0 ∧
    counter MetricCmdDeleteHitsL1 (run (l.Delete req)).2 = 0 ∧
    counter MetricCmdDeleteHits (run (l.Delete req)).2 = 0 ∧
    counter MetricCmdDeleteErrorsL2 (run (l.Delete req)).2 = 0 ∧
    counter MetricCmdDeleteErrorsL1 (run (l.Delete req)).2 = 0 ∧
    counter MetricCmdDeleteErrors (run (l.Delete req)).2 = 0 := by
  simp [run, L1L2Orca.Delete, h2, call, IncCounter, bind, Exec.bind, pure, l1Calls, resCalls,
    counter]

/-- Witness of C4: L2 reports key not found on a working L1. -/
theorem Delete_l2_miss_witness :
    (constHandler (some Err.ErrKeyNotFound) [] []).Delete delA = some Err.ErrKeyNotFound ∧
    (run (L1L2Orca.Delete ⟨okHandler, constHandler (some Err.ErrKeyNotFound) [] [],
      okResponder⟩ delA)).1 = some Err.ErrKeyNotFound ∧
    l1Calls (run (L1L2Orca.Delete ⟨okHandler, constHandler (some Err.ErrKeyNotFound) [] [],
      okResponder⟩ delA)).2 = [] :=
  ⟨rfl,
    (Delete_l2_miss ⟨okHandler, constHandler (some Err.ErrKeyNotFound) [] [], okResponder⟩
      delA rfl).1,
    (Delete_l2_miss ⟨okHandler, constHandler (some Err.ErrKeyNotFound) [] [], okResponder⟩
      delA rfl).2.1⟩

/-- C5: when `L2.Add` returns `ErrKeyExists`, `Add` returns `ErrKeyExists`,
makes no L1 call and no Responder call, increments `MetricCmdAddNotStoredL2`
and `MetricCmdAddNotStored` once each, and increments no add-error counter. -/
theorem Add_l2_exists (l : L1L2Orca) (req : SetRequest)
    (h2 : l.l2.Add req = some Err.ErrKeyExists) :
    (run (l.Add req)).1 = some Err.ErrKeyExists ∧
    l1Calls (run (l.Add req)).2 = [] ∧
    resCalls (run (l.Add req)).2 = [] ∧
    counter MetricCmdAddNotStoredL2 (run (l.Add req)).2 = 1 ∧
    counter MetricCmdAddNotStored (run (l.Add req)).2 = 1 ∧
    counter MetricCmdAddErrorsL2 (run (l.Add req)).2 = 0 ∧
    counter MetricCmdAddErrorsL1 (run (l.Add req)).2 = 0 ∧
    counter MetricCmdAddErrors (run (l.Add req)).2 = 0 := by
  simp [run, L1L2Orca.Add, h2, call, IncCounter, bind, Exec.bind, pure, l1Calls, resCalls,
    counter]

/-- Witness of C5: L2 reports that the key exists. -/
theorem Add_l2_exists_witness :
    (constHandler (some Err.ErrKeyExists) [] []).Add reqA = some Err.ErrKeyExists ∧
    (run (L1L2Orca.Add ⟨okHandler, constHandler (some Err.ErrKeyExists) [] [],
      okResponder⟩ reqA)).1 = some Err.ErrKeyExists ∧
    l1Calls (run (L1L2Orca.Add ⟨okHandler, constHandler (some Err.ErrKeyExists) [] [],
      okResponder⟩ reqA)).2 = [] :=
  ⟨rfl,
    (Add_l2_exists ⟨okHandler, constHandler (some Err.ErrKeyExists) [] [], okResponder⟩
      reqA rfl).1,
    (Add_l2_exists ⟨okHandler, constHandler (some Err.ErrKeyExists) [] [], okResponder⟩
      reqA rfl).2.1⟩

/-- C6: when `L2.Replace` returns `ErrKeyNotFound`, `Replace` returns
`ErrKeyNotFound`, makes no L1 call and no Responder call, increments
`MetricCmdReplaceNotStoredL2` and `MetricCmdReplaceNotStored` once each, and
increments no replace-error counter. -/
theorem Replace_l2_not_found (l : L1L2Orca) (req : SetRequest)
    (h2 : l.l2.Replace req = some Err.ErrKeyNotFound) :
    (run (l.Replace req)).1 = some Err.ErrKeyNotFound ∧
    l1Calls (run (l.Replace req)).2 = [] ∧
    resCalls (run (l.Replace req)).2 = [] ∧
    counter MetricCmdReplaceNotStoredL2 (run (l.Replace req)).2 = 1 ∧
    counter MetricCmdReplaceNotStored (run (l.Replace req)).2 = 1 ∧
    counter MetricCmdReplaceErrorsL2 (run (l.Replace req)).2 = 0 ∧
    counter MetricCmdReplaceErrorsL1 (run (l.Replace req)).2 = 0 ∧
    counter MetricCmdReplaceErrors (run (l.Replace req)).2 = 0 := by
  simp [run, L1L2Orca.Replace, h2, call, IncCounter, bind, Exec.bind, pure, l1Calls,
    resCalls, counter]

/-- Witness of C6: L2 reports key not found. -/
theorem Replace_l2_not_found_witness :
    (constHandler (some Err.ErrKeyNotFound) [] []).Replace reqA = some Err.ErrKeyNotFound ∧
    (run (L1L2Orca.Replace ⟨okHandler, constHandler (some Err.ErrKeyNotFound) [] [],
      okResponder⟩ reqA)).1 = some Err.ErrKeyNotFound ∧
    l1Calls (run (L1L2Orca.Replace ⟨okHandler, constHandler (some Err.ErrKeyNotFound) [] [],
      okResponder⟩ reqA)).2 = [] :=
  ⟨rfl,
    (Replace_l2_not_found ⟨okHandler, constHandler (some Err.ErrKeyNotFound) [] [],
      okResponder⟩ reqA rfl).1,
    (Replace_l2_not_found ⟨okHandler, constHandler (some Err.ErrKeyNotFound) [] [],
      okResponder⟩ reqA rfl).2.1⟩

/-! ## The receive loop of Get -/

theorem counter_append (m : Metric) (t u : List Event) :
    counter m (t ++ u) = counter m t + counter m u := by
  induction t with
  | nil => simp [counter]
  | cons e t ih => cases e <;> simp [counter, ih, Nat.add_assoc]

theorem l1Calls_append (t u : List Event) : l1Calls (t ++ u) = l1Calls t ++ l1Calls u := by
  induction t with
  | nil => simp [l1Calls]
  | cons e t ih => cases e <;> simp [l1Calls, ih]

theorem l2Calls_append (t u : List Event) : l2Calls (t ++ u) = l2Calls t ++ l2Calls u := by
  induction t with
  | nil => simp [l2Calls]
  | cons e t ih => cases e <;> simp [l2Calls, ih]

theorem resCalls_append (t u : List Event) : resCalls (t ++ u) = resCalls t ++ resCalls u := by
  induction t with
  | nil => simp [resCalls]
  | cons e t ih => cases e <;> simp [resCalls, ih]

theorem remaining_eq_zero (s : GetLoop) :
    remaining s = 0 ↔ s.resChan = none ∧ s.errChan = none := by
  rcases s with ⟨rc, ec, err⟩
  cases rc <;> cases ec <;> simp [remaining, pending]

/-- One `select` makes exactly one receive; it forwards a received response
and keeps the value `err` will finally hold. -/
theorem selectStep_spec (l : L1L2Orca) (b : Bool) (s : GetLoop) (t : List Event)
    (h : 0 < remaining s) :
    ∃ s1 t1, selectStep l b s t = (some s1, t1) ∧ remaining s1 + 1 = remaining s ∧
      resCalls t1 ++ (pendingRes s1).map ResCall.Get =
        resCalls t ++ (pendingRes s).map ResCall.Get ∧
      finalErr s1 = finalErr s := by
  rcases s with ⟨rc, ec, err⟩
  rcases rc with _ | _ | ⟨⟨miss, q, o, f, k, d⟩, rq⟩ <;> rcases ec with _ | _ | ⟨e, eq⟩ <;>
    cases b <;> try cases miss
  all_goals first
    | (simp [remaining, pending] at h; done)
    | refine ⟨_, _, rfl, ?_, ?_, ?_⟩
  all_goals
    simp [recvRes, recvErr, bind, Exec.bind, pure, IncCounter, call, remaining, pending,
      pendingRes, finalErr, lastErr, resCalls_append, resCalls]
  all_goals omega

/-- The loop returns after exactly `remaining s` receives, with both channel
variables `nil`, every pending response forwarded in order and `err` holding
the last error value received. -/
theorem getLoop_spec (l : L1L2Orca) (fuel : Nat) :
    ∀ (sched : List Bool) (s : GetLoop) (t : List Event), 0 < remaining s →
      (fuel < remaining s → (getLoop l fuel sched s t).1 = none) ∧
      (remaining s ≤ fuel → ∃ s', (getLoop l fuel sched s t).1 = some s' ∧
        s'.resChan = none ∧ s'.errChan = none ∧ s'.err = finalErr s ∧
        resCalls (getLoop l fuel sched s t).2 =
          resCalls t ++ (pendingRes s).map ResCall.Get) := by
  induction fuel with
  | zero =>
    intro sched s t h
    exact ⟨fun _ => rfl, fun h0 => absurd h (by omega)⟩
  | succ fuel ih =>
    intro sched s t h
    obtain ⟨s1, t1, hstep, hrem, hres, herr⟩ := selectStep_spec l (sched.headD true) s t h
    by_cases hdone : s1.resChan = none ∧ s1.errChan = none
    · have h0 : remaining s1 = 0 := (remaining_eq_zero s1).2 hdone
      have hp : pendingRes s1 = [] := by simp [pendingRes, hdone.1]
      have he : finalErr s1 = s1.err := by simp [finalErr, hdone.2, lastErr]
      refine ⟨fun hlt => absurd hlt (by omega), fun _ => ⟨s1, ?_, hdone.1, hdone.2, ?_, ?_⟩⟩
      · simp only [getLoop, bind, Exec.bind, hstep]
        simp [hdone, pure]
      · rw [← herr, he]
      · simp only [getLoop, bind, Exec.bind, hstep]
        simp [hdone, pure, ← hres, hp]
    · have hpos : 0 < remaining s1 := by
        rcases Nat.eq_zero_or_pos (remaining s1) with h0 | h0
        · exact absurd ((remaining_eq_zero s1).1 h0) hdone
        · exact h0
      have hunf : getLoop l (fuel + 1) sched s t = getLoop l fuel sched.tail s1 t1 := by
        simp only [getLoop, bind, Exec.bind, hstep]
        simp [hdone]
      obtain ⟨ih1, ih2⟩ := ih sched.tail s1 t1 hpos
      rw [hunf]
      refine ⟨fun hlt => ih1 (by omega), fun hle => ?_⟩
      obtain ⟨s', hs', hr, he, hfe, hrc⟩ := ih2 (by omega)
      exact ⟨s', hs', hr, he, by rw [hfe, herr], by rw [hrc, hres]⟩

/-- The whole of `Get`: it returns after exactly `len rs + len es + 2`
receives, with the last error value received (nil when there was none), having
forwarded every response in order and sent `GetEnd` iff that value is nil. -/
theorem Get_spec (l : L1L2Orca) (sched : List Bool) (fuel : Nat) (req : GetRequest)
    (rs : List GetResponse) (es : List GoError) (hget : l.l1.Get req = (rs, es)) :
    (fuel < rs.length + es.length + 2 → (run (l.Get sched fuel req)).1 = none) ∧
    (rs.length + es.length + 2 ≤ fuel →
      (run (l.Get sched fuel req)).1 = some (lastErr none es) ∧
      resCalls (run (l.Get sched fuel req)).2 = rs.map ResCall.Get ++
        (if lastErr none es = none then [ResCall.GetEnd req.NoopOpaque req.NoopEnd] else [])) := by
  simp only [run, L1L2Orca.Get, bind, Exec.bind, IncCounter, IncCounterBy, call, hget]
  generalize ht : (([] : List Event) ++ [Event.inc MetricCmdGet 1] ++
    [Event.inc MetricCmdGetKeys req.Keys.length] ++ [Event.inc MetricCmdGetL1 1] ++
    [Event.inc MetricCmdGetKeysL1 req.Keys.length] ++ [Event.l1 (TierCall.Get req)]) = t0
  have hrc0 : resCalls t0 = [] := by rw [← ht]; rfl
  have hpos : 0 < remaining ⟨some rs, some es, none⟩ := by simp [remaining, pending]
  have hrem : remaining ⟨some rs, some es, none⟩ = rs.length + es.length + 2 := by
    simp [remaining, pending]; omega
  obtain ⟨h1, h2⟩ := getLoop_spec l fuel sched ⟨some rs, some es, none⟩ t0 hpos
  rw [hrem] at h1 h2
  constructor
  · intro hlt
    rw [h1 hlt]
    rfl
  · intro hle
    obtain ⟨s', hs', -, -, herr, hrc⟩ := h2 hle
    have herr' : s'.err = lastErr none es := by simpa [finalErr] using herr
    have hrc' : resCalls (getLoop l fuel sched ⟨some rs, some es, none⟩ t0).2 =
        rs.map ResCall.Get := by simpa [hrc0, pendingRes] using hrc
    rw [hs']
    by_cases hn : lastErr none es = none
    · simp [herr', hn, call, Exec.bind, pure, resCalls_append, resCalls, hrc']
    · simp [herr', hn, Exec.bind, pure, hrc']

theorem lastErr_eq_getLast (es : List GoError) :
    ∀ d : GoError, lastErr d es = es.getLast?.getD d := by
  induction es with
  | nil => intro d; rfl
  | cons x q ih =>
    intro d
    rw [lastErr, ih x]
    cases q <;> simp [List.getLast?]

theorem lastErr_ne_none (es : List GoError) (hnn : ∀ x ∈ es, x ≠ none) (hne : es ≠ []) :
    ∀ d : GoError, lastErr d es ≠ none := by
  induction es with
  | nil => exact absurd rfl hne
  | cons x q ih =>
    intro d
    rw [lastErr]
    cases q with
    | nil => exact hnn x (by simp)
    | cons y q' =>
      exact ih (fun z hz => hnn z (List.mem_cons_of_mem _ hz)) (by simp) x

theorem getCalls_append (cs ds : List ResCall) :
    getCalls (cs ++ ds) = getCalls cs ++ getCalls ds := by
  induction cs with
  | nil => simp [getCalls]
  | cons c cs ih => cases c <;> simp [getCalls, ih]

theorem getCalls_map (rs : List GetResponse) : getCalls (rs.map ResCall.Get) = rs := by
  induction rs with
  | nil => rfl
  | cons r rs ih => simp [getCalls, ih]

/-- The loop leaves only through the `break`, that is with both channel
variables `nil`. -/
theorem getLoop_exit (l : L1L2Orca) (fuel : Nat) :
    ∀ (sched : List Bool) (s : GetLoop) (t : List Event) (s' : GetLoop),
      (getLoop l fuel sched s t).1 = some s' → s'.resChan = none ∧ s'.errChan = none := by
  induction fuel with
  | zero =>
    intro sched s t s' h
    simp [getLoop, pure] at h
  | succ fuel ih =>
    intro sched s t s' h
    rcases hstep : selectStep l (sched.headD true) s t with ⟨_ | s1, t1⟩
    · simp only [getLoop, bind, Exec.bind, hstep] at h
      simp [pure] at h
    · simp only [getLoop, bind, Exec.bind, hstep] at h
      by_cases hdone : s1.resChan = none ∧ s1.errChan = none
      · simp [hdone, pure] at h
        rw [← h]
        exact hdone
      · simp only [hdone, if_false] at h
        exact ih _ _ _ _ h

/-! ## Get: forwarding, the end marker and draining -/

/-- C7: when L1's result stream yields `rs` and closes and its error stream
closes without a value, then under every schedule of the `select` `Get`
returns nil and the Responder receives exactly one `Get` call per element of
`rs`, in order, followed by exactly one `GetEnd (req.NoopOpaque, req.NoopEnd)`. -/
theorem Get_no_error (l : L1L2Orca) (sched : List Bool) (fuel : Nat) (req : GetRequest)
    (rs : List GetResponse) (hget : l.l1.Get req = (rs, []))
    (hfuel : rs.length + 2 ≤ fuel) :
    (run (l.Get sched fuel req)).1 = some none ∧
    resCalls (run (l.Get sched fuel req)).2 =
      rs.map ResCall.Get ++ [ResCall.GetEnd req.NoopOpaque req.NoopEnd] ∧
    (resCalls (run (l.Get sched fuel req)).2).length = rs.length + 1 := by
  obtain ⟨hret, hres⟩ := (Get_spec l sched fuel req rs [] hget).2 (by simpa using hfuel)
  refine ⟨by simpa [lastErr] using hret, by simpa [lastErr] using hres, ?_⟩
  rw [hres]
  simp [lastErr]

/-- Witness of C7: a hit and a miss, no error. -/
theorem Get_no_error_witness :
    (constHandler none [hitA, missB] []).Get getAB = ([hitA, missB], []) ∧
    [hitA, missB].length + 2 ≤ 4 ∧
    (run (L1L2Orca.Get ⟨constHandler none [hitA, missB] [], okHandler, okResponder⟩
      [false, true] 4 getAB)).1 = some none ∧
    resCalls (run (L1L2Orca.Get ⟨constHandler none [hitA, missB] [], okHandler, okResponder⟩
      [false, true] 4 getAB)).2 =
      [ResCall.Get hitA, ResCall.Get missB, ResCall.GetEnd 3 true] :=
  ⟨rfl, by decide,
    (Get_no_error ⟨constHandler none [hitA, missB] [], okHandler, okResponder⟩ [false, true]
      4 getAB [hitA, missB] rfl (by decide)).1,
    (Get_no_error ⟨constHandler none [hitA, missB] [], okHandler, okResponder⟩ [false, true]
      4 getAB [hitA, missB] rfl (by decide)).2.1⟩

/-- C8: let the error stream carry the non-nil errors `es` and the result
stream the responses `rs`.  Under every schedule, `Get` returns the last error
of `es` (nil when `es` is empty); the Responder receives the forwarded
responses followed by one `GetEnd` when `es` is empty and by nothing otherwise,
so that `GetEnd` is sent iff no error event was received; and when `es` is the
single event `e`, `Get` returns exactly `e` and no `GetEnd` is sent. -/
theorem Get_end_iff_no_error (l : L1L2Orca) (sched : List Bool) (fuel : Nat)
    (req : GetRequest) (rs : List GetResponse) (es : List GoError)
    (hget : l.l1.Get req = (rs, es)) (hnn : ∀ x ∈ es, x ≠ none)
    (hfuel : rs.length + es.length + 2 ≤ fuel) :
    (run (l.Get sched fuel req)).1 = some (es.getLast?.getD none) ∧
    resCalls (run (l.Get sched fuel req)).2 = rs.map ResCall.Get ++
      (if es = [] then [ResCall.GetEnd req.NoopOpaque req.NoopEnd] else []) ∧
    ((∃ a b, ResCall.GetEnd a b ∈ resCalls (run (l.Get sched fuel req)).2) ↔ es = []) ∧
    (∀ e, es = [some e] → (run (l.Get sched fuel req)).1 = some (some e) ∧
      ∀ a b, ResCall.GetEnd a b ∉ resCalls (run (l.Get sched fuel req)).2) := by
  obtain ⟨hret, hres⟩ := (Get_spec l sched fuel req rs es hget).2 hfuel
  have hiff : lastErr none es = none ↔ es = [] := by
    constructor
    · intro h
      by_contra hne
      exact lastErr_ne_none es hnn hne none h
    · intro h
      rw [h]
      rfl
  have hres' : resCalls (run (l.Get sched fuel req)).2 = rs.map ResCall.Get ++
      (if es = [] then [ResCall.GetEnd req.NoopOpaque req.NoopEnd] else []) := by
    rw [hres]
    by_cases he : es = []
    · simp [he, lastErr]
    · simp [he, hiff]
  have hmem : (∃ a b, ResCall.GetEnd a b ∈ resCalls (run (l.Get sched fuel req)).2) ↔
      es = [] := by
    rw [hres']
    by_cases he : es = []
    · simp [he]
    · simp [he]
  refine ⟨by rw [hret, lastErr_eq_getLast], hres', hmem, ?_⟩
  intro e he
  refine ⟨by rw [hret, he]; rfl, fun a b hab => ?_⟩
  have : es = [] := hmem.1 ⟨a, b, hab⟩
  rw [this] at he
  exact absurd he (by simp)

/-- Witness of C8: one error event arrives between the two results. -/
theorem Get_end_iff_no_error_witness :
    (constHandler none [hitA, missB] [some (Err.backend 5)]).Get getAB =
      ([hitA, missB], [some (Err.backend 5)]) ∧
    (∀ x ∈ [some (Err.backend 5)], x ≠ none) ∧
    (run (L1L2Orca.Get ⟨constHandler none [hitA, missB] [some (Err.backend 5)], okHandler,
      okResponder⟩ [true, false] 5 getAB)).1 = some (some (Err.backend 5)) ∧
    resCalls (run (L1L2Orca.Get ⟨constHandler none [hitA, missB] [some (Err.backend 5)],
      okHandler, okResponder⟩ [true, false] 5 getAB)).2 =
      [ResCall.Get hitA, ResCall.Get missB] :=
  ⟨rfl, by decide,
    (Get_end_iff_no_error ⟨constHandler none [hitA, missB] [some (Err.backend 5)], okHandler,
      okResponder⟩ [true, false] 5 getAB [hitA, missB] [some (Err.backend 5)] rfl
      (by decide) (by decide)).1,
    (Get_end_iff_no_error ⟨constHandler none [hitA, missB] [some (Err.backend 5)], okHandler,
      okResponder⟩ [true, false] 5 getAB [hitA, missB] [some (Err.backend 5)] rfl
      (by decide) (by decide)).2.1⟩

/-- C9: let the result stream carry `rs` and the error stream `es`, each then
closed.  Under every schedule of the `select`, `Get` has not returned after
fewer than `len rs + len es + 2` receives (the values of both streams and the
two closes) and returns after exactly that many; the loop is left only with
both channel variables `nil`; and every response of `rs` is passed to
`Responder.Get` exactly once, in order, whatever was received on the error
stream before it. -/
theorem Get_drains_both_streams (l : L1L2Orca) (sched : List Bool) (fuel : Nat)
    (req : GetRequest) (rs : List GetResponse) (es : List GoError)
    (hget : l.l1.Get req = (rs, es)) :
    (fuel < rs.length + es.length + 2 → (run (l.Get sched fuel req)).1 = none) ∧
    (rs.length + es.length + 2 ≤ fuel →
      (run (l.Get sched fuel req)).1 ≠ none ∧
      getCalls (resCalls (run (l.Get sched fuel req)).2) = rs) ∧
    (∀ (t : List Event) (s' : GetLoop),
      (getLoop l fuel sched ⟨some rs, some es, none⟩ t).1 = some s' →
        s'.resChan = none ∧ s'.errChan = none) := by
  obtain ⟨h1, h2⟩ := Get_spec l sched fuel req rs es hget
  refine ⟨h1, fun hle => ?_, fun t s' h => getLoop_exit l fuel sched _ t s' h⟩
  obtain ⟨hret, hres⟩ := h2 hle
  refine ⟨by rw [hret]; simp, ?_⟩
  rw [hres, getCalls_append, getCalls_map]
  by_cases hn : lastErr none es = none <;> simp [hn, getCalls]

/-- Witness of C9: the error event and the close of the error stream are
received before both results; four receives are not enough, five are. -/
theorem Get_drains_both_streams_witness :
    (constHandler none [hitA, missB] [some (Err.backend 5)]).Get getAB =
      ([hitA, missB], [some (Err.backend 5)]) ∧
    (run (L1L2Orca.Get ⟨constHandler none [hitA, missB] [some (Err.backend 5)], okHandler,
      okResponder⟩ [false, false] 4 getAB)).1 = none ∧
    getCalls (resCalls (run (L1L2Orca.Get ⟨constHandler none [hitA, missB]
      [some (Err.backend 5)], okHandler, okResponder⟩ [false, false] 5 getAB)).2) =
      [hitA, missB] :=
  ⟨rfl,
    (Get_drains_both_streams ⟨constHandler none [hitA, missB] [some (Err.backend 5)],
      okHandler, okResponder⟩ [false, false] 4 getAB [hitA, missB] [some (Err.backend 5)]
      rfl).1 (by decide),
    ((Get_drains_both_streams ⟨constHandler none [hitA, missB] [some (Err.backend 5)],
      okHandler, okResponder⟩ [false, false] 5 getAB [hitA, missB] [some (Err.backend 5)]
      rfl).2.1 (by decide)).2⟩

/-! ## Set: dual success -/

/-- C10: when `L2.Set` and `L1.Set` return nil and `Responder.Set` reports no
error, `Set` returns nil, calls `Responder.Set` exactly once with the request's
opaque token and quiet flag, increments `MetricCmdSet`, `MetricCmdSetL2`,
`MetricCmdSetL1`, `MetricCmdSetSuccessL2`, `MetricCmdSetSuccessL1` and
`MetricCmdSetSuccess` by exactly 1 each, and increments no set-error counter. -/
theorem Set_success (l : L1L2Orca) (req : SetRequest)
    (h2 : l.l2.Set req = none) (h1 : l.l1.Set req = none)
    (hr : l.res.Set req.Opaque req.Quiet = none) :
    (run (l.Set req)).1 = none ∧
    resCalls (run (l.Set req)).2 = [ResCall.Set req.Opaque req.Quiet] ∧
    counter MetricCmdSet (run (l.Set req)).2 = 1 ∧
    counter MetricCmdSetL2 (run (l.Set req)).2 = 1 ∧
    counter MetricCmdSetL1 (run (l.Set req)).2 = 1 ∧
    counter MetricCmdSetSuccessL2 (run (l.Set req)).2 = 1 ∧
    counter MetricCmdSetSuccessL1 (run (l.Set req)).2 = 1 ∧
    counter MetricCmdSetSuccess (run (l.Set req)).2 = 1 ∧
    counter MetricCmdSetErrorsL2 (run (l.Set req)).2 = 0 ∧
    counter MetricCmdSetErrorsL1 (run (l.Set req)).2 = 0 ∧
    counter MetricCmdSetErrors (run (l.Set req)).2 = 0 := by
  simp [run, L1L2Orca.Set, h1, h2, hr, call, IncCounter, bind, Exec.bind, pure, resCalls,
    counter]

/-- Witness of C10: both tiers and the responder succeed. -/
theorem Set_success_witness :
    okHandler.Set reqA = none ∧ okResponder.Set reqA.Opaque reqA.Quiet = none ∧
    (run (L1L2Orca.Set ⟨okHandler, okHandler, okResponder⟩ reqA)).1 = none ∧
    resCalls (run (L1L2Orca.Set ⟨okHandler, okHandler, okResponder⟩ reqA)).2 =
      [ResCall.Set 7 false] :=
  ⟨rfl, rfl,
    (Set_success ⟨okHandler, okHandler, okResponder⟩ reqA rfl rfl rfl).1,
    (Set_success ⟨okHandler, okHandler, okResponder⟩ reqA rfl rfl rfl).2.1⟩

/-! ## Set and Add: failure of L1 after L2 -/

/-- C11: when `L2.Set` returns nil and `L1.Set` returns a non-nil error `e`,
`Set` returns exactly `e`, makes no Responder call, calls L2 exactly once (the
one `Set`, no rollback), increments `MetricCmdSetErrorsL1` and
`MetricCmdSetErrors` once each and does not increment `MetricCmdSetSuccess`. -/
theorem Set_l1_error (l : L1L2Orca) (req : SetRequest) (e : Err)
    (h2 : l.l2.Set req = none) (h1 : l.l1.Set req = some e) :
    (run (l.Set req)).1 = some e ∧
    resCalls (run (l.Set req)).2 = [] ∧
    l2Calls (run (l.Set req)).2 = [TierCall.Set req] ∧
    calls (run (l.Set req)).2 = [Event.l2 (TierCall.Set req), Event.l1 (TierCall.Set req)] ∧
    counter MetricCmdSetErrorsL1 (run (l.Set req)).2 = 1 ∧
    counter MetricCmdSetErrors (run (l.Set req)).2 = 1 ∧
    counter MetricCmdSetSuccess (run (l.Set req)).2 = 0 := by
  simp [run, L1L2Orca.Set, h1, h2, call, IncCounter, bind, Exec.bind, pure, resCalls,
    l2Calls, calls, counter]

/-- Witness of C11: L1 fails with a backend error after L2 stored the value. -/
theorem Set_l1_error_witness :
    okHandler.Set reqA = none ∧
    (constHandler (some (Err.backend 2)) [] []).Set reqA = some (Err.backend 2) ∧
    (run (L1L2Orca.Set ⟨constHandler (some (Err.backend 2)) [] [], okHandler, okResponder⟩
      reqA)).1 = some (Err.backend 2) ∧
    resCalls (run (L1L2Orca.Set ⟨constHandler (some (Err.backend 2)) [] [], okHandler,
      okResponder⟩ reqA)).2 = [] :=
  ⟨rfl, rfl,
    (Set_l1_error ⟨constHandler (some (Err.backend 2)) [] [], okHandler, okResponder⟩ reqA
      (Err.backend 2) rfl rfl).1,
    (Set_l1_error ⟨constHandler (some (Err.backend 2)) [] [], okHandler, okResponder⟩ reqA
      (Err.backend 2) rfl rfl).2.1⟩

/-- C12: `Add` calls the Responder at most once, and calls `Responder.Add`
(once, with the request's opaque token and quiet flag) iff `L2.Add` and
`L1.Add` both return nil.  When `L2.Add` returns nil and `L1.Add` returns
`ErrKeyExists`, `MetricCmdAddNotStoredL1` and `MetricCmdAddNotStored` are
incremented once each and no add-error counter is; when `L1.Add` returns any
other non-nil error, `MetricCmdAddErrorsL1` and `MetricCmdAddErrors` are
incremented once each and no not-stored counter is. -/
theorem Add_l1_classification (l : L1L2Orca) (req : SetRequest) :
    (resCalls (run (l.Add req)).2 = [ResCall.Add req.Opaque req.Quiet] ∨
      resCalls (run (l.Add req)).2 = []) ∧
    (resCalls (run (l.Add req)).2 = [ResCall.Add req.Opaque req.Quiet] ↔
      l.l2.Add req = none ∧ l.l1.Add req = none) ∧
    (l.l2.Add req = none → l.l1.Add req = some Err.ErrKeyExists →
      (run (l.Add req)).1 = some Err.ErrKeyExists ∧
      counter MetricCmdAddNotStoredL1 (run (l.Add req)).2 = 1 ∧
      counter MetricCmdAddNotStored (run (l.Add req)).2 = 1 ∧
      counter MetricCmdAddErrorsL2 (run (l.Add req)).2 = 0 ∧
      counter MetricCmdAddErrorsL1 (run (l.Add req)).2 = 0 ∧
      counter MetricCmdAddErrors (run (l.Add req)).2 = 0) ∧
    (∀ e : Err, l.l2.Add req = none → l.l1.Add req = some e → e ≠ Err.ErrKeyExists →
      (run (l.Add req)).1 = some e ∧
      counter MetricCmdAddErrorsL1 (run (l.Add req)).2 = 1 ∧
      counter MetricCmdAddErrors (run (l.Add req)).2 = 1 ∧
      counter MetricCmdAddNotStoredL2 (run (l.Add req)).2 = 0 ∧
      counter MetricCmdAddNotStoredL1 (run (l.Add req)).2 = 0 ∧
      counter MetricCmdAddNotStored (run (l.Add req)).2 = 0) := by
  rcases h2 : l.l2.Add req with _ | e2 <;> rcases h1 : l.l1.Add req with _ | e1
  · simp [run, L1L2Orca.Add, h1, h2, call, IncCounter, bind, Exec.bind, pure, resCalls]
  · cases e1 <;>
      simp [run, L1L2Orca.Add, h1, h2, call, IncCounter, bind, Exec.bind, pure, resCalls,
        counter]
  · cases e2 <;>
      simp [run, L1L2Orca.Add, h1, h2, call, IncCounter, bind, Exec.bind, pure, resCalls]
  · cases e2 <;>
      simp [run, L1L2Orca.Add, h1, h2, call, IncCounter, bind, Exec.bind, pure, resCalls]

/-- Witness of C12: L2 stores the key, L1 reports that it exists. -/
theorem Add_l1_classification_witness :
    okHandler.Add reqA = none ∧
    (constHandler (some Err.ErrKeyExists) [] []).Add reqA = some Err.ErrKeyExists ∧
    (run (L1L2Orca.Add ⟨constHandler (some Err.ErrKeyExists) [] [], okHandler, okResponder⟩
      reqA)).1 = some Err.ErrKeyExists ∧
    counter MetricCmdAddNotStoredL1 (run (L1L2Orca.Add
      ⟨constHandler (some Err.ErrKeyExists) [] [], okHandler, okResponder⟩ reqA)).2 = 1 :=
  ⟨rfl, rfl,
    ((Add_l1_classification ⟨constHandler (some Err.ErrKeyExists) [] [], okHandler,
      okResponder⟩ reqA).2.2.1 rfl rfl).1,
    ((Add_l1_classification ⟨constHandler (some Err.ErrKeyExists) [] [], okHandler,
      okResponder⟩ reqA).2.2.1 rfl rfl).2.1⟩

/-! ## Backend errors -/

/-- C13: let `e` be an error that is neither `ErrKeyExists` nor
`ErrKeyNotFound`.  For each of `Set`, `Add`, `Replace` and `Delete`: if the L2
call returns `e`, the method returns `e` and its only call is that L2 call; if
the L2 call returns nil and the L1 call returns `e`, the method returns `e` and
its only calls are the L2 call followed by the L1 call.  For `Touch` and `Gat`:
if the L1 call returns `e`, the method returns `e` and its only call is that
L1 call.  In every case no tier call follows the failing one and the Responder
is not called. -/
theorem backend_error_propagates (l : L1L2Orca) (req : SetRequest) (dreq : DeleteRequest)
    (treq : TouchRequest) (greq : GATRequest) (e : Err)
    (hx : e ≠ Err.ErrKeyExists) (hn : e ≠ Err.ErrKeyNotFound) :
    (l.l2.Set req = some e → (run (l.Set req)).1 = some e ∧
      calls (run (l.Set req)).2 = [Event.l2 (TierCall.Set req)]) ∧
    (l.l2.Set req = none → l.l1.Set req = some e → (run (l.Set req)).1 = some e ∧
      calls (run (l.Set req)).2 = [Event.l2 (TierCall.Set req), Event.l1 (TierCall.Set req)]) ∧
    (l.l2.Add req = some e → (run (l.Add req)).1 = some e ∧
      calls (run (l.Add req)).2 = [Event.l2 (TierCall.Add req)]) ∧
    (l.l2.Add req = none → l.l1.Add req = some e → (run (l.Add req)).1 = some e ∧
      calls (run (l.Add req)).2 = [Event.l2 (TierCall.Add req), Event.l1 (TierCall.Add req)]) ∧
    (l.l2.Replace req = some e → (run (l.Replace req)).1 = some e ∧
      calls (run (l.Replace req)).2 = [Event.l2 (TierCall.Replace req)]) ∧
    (l.l2.Replace req = none → l.l1.Replace req = some e →
      (run (l.Replace req)).1 = some e ∧
      calls (run (l.Replace req)).2 =
        [Event.l2 (TierCall.Replace req), Event.l1 (TierCall.Replace req)]) ∧
    (l.l2.Delete dreq = some e → (run (l.Delete dreq)).1 = some e ∧
      calls (run (l.Delete dreq)).2 = [Event.l2 (TierCall.Delete dreq)]) ∧
    (l.l2.Delete dreq = none → l.l1.Delete dreq = some e →
      (run (l.Delete dreq)).1 = some e ∧
      calls (run (l.Delete dreq)).2 =
        [Event.l2 (TierCall.Delete dreq), Event.l1 (TierCall.Delete dreq)]) ∧
    (l.l1.Touch treq = some e → (run (l.Touch treq)).1 = some e ∧
      calls (run (l.Touch treq)).2 = [Event.l1 (TierCall.Touch treq)]) ∧
    (∀ r : GetResponse, l.l1.GAT greq = (r, some e) → (run (l.Gat greq)).1 = some e ∧
      calls (run (l.Gat greq)).2 = [Event.l1 (TierCall.GAT greq)]) := by
  refine ⟨?_, ?_, ?_, ?_, ?_, ?_, ?_, ?_, ?_, ?_⟩
  · intro h2
    simp [run, L1L2Orca.Set, h2, call, IncCounter, bind, Exec.bind, pure, calls]
  · intro h2 h1
    simp [run, L1L2Orca.Set, h1, h2, call, IncCounter, bind, Exec.bind, pure, calls]
  · intro h2
    simp [run, L1L2Orca.Add, h2, hx, call, IncCounter, bind, Exec.bind, pure, calls]
  · intro h2 h1
    simp [run, L1L2Orca.Add, h1, h2, hx, call, IncCounter, bind, Exec.bind, pure, calls]
  · intro h2
    simp [run, L1L2Orca.Replace, h2, hn, call, IncCounter, bind, Exec.bind, pure, calls]
  · intro h2 h1
    simp [run, L1L2Orca.Replace, h1, h2, hn, call, IncCounter, bind, Exec.bind, pure, calls]
  · intro h2
    simp [run, L1L2Orca.Delete, h2, hn, call, IncCounter, bind, Exec.bind, pure, calls]
  · intro h2 h1
    simp [run, L1L2Orca.Delete, h1, h2, hn, call, IncCounter, bind, Exec.bind, pure, calls]
  · intro h1
    simp [run, L1L2Orca.Touch, h1, hn, call, IncCounter, bind, Exec.bind, pure, calls]
  · intro r h1
    simp [run, L1L2Orca.Gat, h1, call, IncCounter, bind, Exec.bind, pure, calls]

/-- Witness of C13: L2 fails with a backend error during `Delete`. -/
theorem backend_error_propagates_witness :
    Err.backend 3 ≠ Err.ErrKeyExists ∧ Err.backend 3 ≠ Err.ErrKeyNotFound ∧
    (constHandler (some (Err.backend 3)) [] []).Delete delA = some (Err.backend 3) ∧
    (run (L1L2Orca.Delete ⟨okHandler, constHandler (some (Err.backend 3)) [] [],
      okResponder⟩ delA)).1 = some (Err.backend 3) ∧
    calls (run (L1L2Orca.Delete ⟨okHandler, constHandler (some (Err.backend 3)) [] [],
      okResponder⟩ delA)).2 = [Event.l2 (TierCall.Delete delA)] :=
  ⟨by decide, by decide, rfl,
    (backend_error_propagates ⟨okHandler, constHandler (some (Err.backend 3)) [] [],
      okResponder⟩ reqA delA touchA gatA (Err.backend 3) (by decide)
      (by decide)).2.2.2.2.2.2.1 rfl⟩

/-! ## Touch and Gat -/

/-- C14: `Touch` calls `L1.Touch` exactly once and no L2 operation, and returns
exactly the value `L1.Touch` returned.  It calls the Responder iff that value
is nil, and then once, `Responder.Touch` with the request's opaque token, with
`MetricCmdTouchHitsL1` and `MetricCmdTouchHits` incremented once each; on any
non-nil value, `ErrKeyNotFound` or not, `MetricCmdTouchMissesL1` and
`MetricCmdTouchMisses` are incremented once each and no hit counter is. -/
theorem Touch_l1_only (l : L1L2Orca) (req : TouchRequest) :
    (run (l.Touch req)).1 = l.l1.Touch req ∧
    l1Calls (run (l.Touch req)).2 = [TierCall.Touch req] ∧
    l2Calls (run (l.Touch req)).2 = [] ∧
    (resCalls (run (l.Touch req)).2 =
      if l.l1.Touch req = none then [ResCall.Touch req.Opaque] else []) ∧
    (l.l1.Touch req = none →
      counter MetricCmdTouchHitsL1 (run (l.Touch req)).2 = 1 ∧
      counter MetricCmdTouchHits (run (l.Touch req)).2 = 1 ∧
      counter MetricCmdTouchMissesL1 (run (l.Touch req)).2 = 0 ∧
      counter MetricCmdTouchMisses (run (l.Touch req)).2 = 0) ∧
    (l.l1.Touch req ≠ none →
      counter MetricCmdTouchMissesL1 (run (l.Touch req)).2 = 1 ∧
      counter MetricCmdTouchMisses (run (l.Touch req)).2 = 1 ∧
      counter MetricCmdTouchHitsL1 (run (l.Touch req)).2 = 0 ∧
      counter MetricCmdTouchHits (run (l.Touch req)).2 = 0) := by
  rcases h1 : l.l1.Touch req with _ | e1
  · simp [run, L1L2Orca.Touch, h1, call, IncCounter, bind, Exec.bind, pure, l1Calls,
      l2Calls, resCalls, counter]
  · cases e1 <;>
      simp [run, L1L2Orca.Touch, h1, call, IncCounter, bind, Exec.bind, pure, l1Calls,
        l2Calls, resCalls, counter]

/-- Witness of C14: a touch of a key L1 does not hold. -/
theorem Touch_l1_only_witness :
    (constHandler (some Err.ErrKeyNotFound) [] []).Touch touchA ≠ none ∧
    (run (L1L2Orca.Touch ⟨constHandler (some Err.ErrKeyNotFound) [] [], okHandler,
      okResponder⟩ touchA)).1 = some Err.ErrKeyNotFound ∧
    counter MetricCmdTouchMisses (run (L1L2Orca.Touch
      ⟨constHandler (some Err.ErrKeyNotFound) [] [], okHandler, okResponder⟩ touchA)).2 = 1 :=
  ⟨by decide,
    (Touch_l1_only ⟨constHandler (some Err.ErrKeyNotFound) [] [], okHandler, okResponder⟩
      touchA).1,
    ((Touch_l1_only ⟨constHandler (some Err.ErrKeyNotFound) [] [], okHandler, okResponder⟩
      touchA).2.2.2.2.2 (by decide)).2.1⟩

/-- C15: `Gat` calls `L1.GAT` exactly once and no L2 operation, and never
calls `Responder.GetEnd`.  When `L1.GAT` returns `(res, nil)`, `Gat` returns
nil, calls the Responder exactly once, `GAT res`, and counts a miss
(`MetricCmdGatMissesL1`, `MetricCmdGatMisses`) when `res.Miss` holds and a hit
(`MetricCmdGatHitsL1`, `MetricCmdGatHits`) otherwise.  When `L1.GAT` returns a
non-nil error `e`, `Gat` returns `e`, makes no Responder call and increments
`MetricCmdGatErrors` and `MetricCmdGatErrorsL1` once each. -/
theorem Gat_l1_only (l : L1L2Orca) (req : GATRequest) :
    l1Calls (run (l.Gat req)).2 = [TierCall.GAT req] ∧
    l2Calls (run (l.Gat req)).2 = [] ∧
    (∀ a b, ResCall.GetEnd a b ∉ resCalls (run (l.Gat req)).2) ∧
    (∀ r : GetResponse, l.l1.GAT req = (r, none) →
      (run (l.Gat req)).1 = none ∧
      resCalls (run (l.Gat req)).2 = [ResCall.GAT r] ∧
      counter MetricCmdGatErrors (run (l.Gat req)).2 = 0 ∧
      counter MetricCmdGatErrorsL1 (run (l.Gat req)).2 = 0 ∧
      (r.Miss = true →
        counter MetricCmdGatMissesL1 (run (l.Gat req)).2 = 1 ∧
        counter MetricCmdGatMisses (run (l.Gat req)).2 = 1 ∧
        counter MetricCmdGatHitsL1 (run (l.Gat req)).2 = 0 ∧
        counter MetricCmdGatHits (run (l.Gat req)).2 = 0) ∧
      (r.Miss = false →
        counter MetricCmdGatHitsL1 (run (l.Gat req)).2 = 1 ∧
        counter MetricCmdGatHits (run (l.Gat req)).2 = 1 ∧
        counter MetricCmdGatMissesL1 (run (l.Gat req)).2 = 0 ∧
        counter MetricCmdGatMisses (run (l.Gat req)).2 = 0)) ∧
    (∀ (r : GetResponse) (e : Err), l.l1.GAT req = (r, some e) →
      (run (l.Gat req)).1 = some e ∧
      resCalls (run (l.Gat req)).2 = [] ∧
      counter MetricCmdGatErrors (run (l.Gat req)).2 = 1 ∧
      counter MetricCmdGatErrorsL1 (run (l.Gat req)).2 = 1) := by
  rcases h1 : l.l1.GAT req with ⟨r, _ | e1⟩
  · cases hm : r.Miss <;>
      simp [run, L1L2Orca.Gat, h1, hm, call, IncCounter, bind, Exec.bind, pure, l1Calls,
        l2Calls, resCalls, counter]
  · simp [run, L1L2Orca.Gat, h1, call, IncCounter, bind, Exec.bind, pure, l1Calls,
      l2Calls, resCalls, counter]

/-- Witness of C15: a get-and-touch that hits in L1. -/
theorem Gat_l1_only_witness :
    okHandler.GAT gatA = (⟨false, false, 0, 0, [], []⟩, none) ∧
    (run (L1L2Orca.Gat ⟨okHandler, okHandler, okResponder⟩ gatA)).1 = none ∧
    resCalls (run (L1L2Orca.Gat ⟨okHandler, okHandler, okResponder⟩ gatA)).2 =
      [ResCall.GAT ⟨false, false, 0, 0, [], []⟩] :=
  ⟨rfl,
    ((Gat_l1_only ⟨okHandler, okHandler, okResponder⟩ gatA).2.2.2.1 _ rfl).1,
    ((Gat_l1_only ⟨okHandler, okHandler, okResponder⟩ gatA).2.2.2.1 _ rfl).2.1⟩

/-! ## Ordering of the tier calls and visibility in the counters -/

/-- C16: for each of `Set`, `Add`, `Replace` and `Delete` and every behaviour
of the tiers, the calls of a run are: the L2 operation, once and first; then
the L1 operation, once, iff L2 returned nil; then the Responder, iff L1 was
called and returned nil as well. -/
theorem write_call_order (l : L1L2Orca) (req : SetRequest) (dreq : DeleteRequest) :
    calls (run (l.Set req)).2 = Event.l2 (TierCall.Set req) ::
      (if l.l2.Set req = none then Event.l1 (TierCall.Set req) ::
        (if l.l1.Set req = none then [Event.res (ResCall.Set req.Opaque req.Quiet)] else [])
      else []) ∧
    calls (run (l.Add req)).2 = Event.l2 (TierCall.Add req) ::
      (if l.l2.Add req = none then Event.l1 (TierCall.Add req) ::
        (if l.l1.Add req = none then [Event.res (ResCall.Add req.Opaque req.Quiet)] else [])
      else []) ∧
    calls (run (l.Replace req)).2 = Event.l2 (TierCall.Replace req) ::
      (if l.l2.Replace req = none then Event.l1 (TierCall.Replace req) ::
        (if l.l1.Replace req = none then [Event.res (ResCall.Replace req.Opaque req.Quiet)]
          else [])
      else []) ∧
    calls (run (l.Delete dreq)).2 = Event.l2 (TierCall.Delete dreq) ::
      (if l.l2.Delete dreq = none then Event.l1 (TierCall.Delete dreq) ::
        (if l.l1.Delete dreq = none then [Event.res (ResCall.Delete dreq.Opaque)] else [])
      else []) := by
  refine ⟨?_, ?_, ?_, ?_⟩
  · rcases h2 : l.l2.Set req with _ | e2 <;> rcases h1 : l.l1.Set req with _ | e1 <;>
      simp [run, L1L2Orca.Set, h1, h2, call, IncCounter, bind, Exec.bind, pure, calls]
  · rcases h2 : l.l2.Add req with _ | e2 <;> rcases h1 : l.l1.Add req with _ | e1 <;>
      (try cases e2) <;> (try cases e1) <;>
      simp [run, L1L2Orca.Add, h1, h2, call, IncCounter, bind, Exec.bind, pure, calls]
  · rcases h2 : l.l2.Replace req with _ | e2 <;> rcases h1 : l.l1.Replace req with _ | e1 <;>
      (try cases e2) <;> (try cases e1) <;>
      simp [run, L1L2Orca.Replace, h1, h2, call, IncCounter, bind, Exec.bind, pure, calls]
  · rcases h2 : l.l2.Delete dreq with _ | e2 <;> rcases h1 : l.l1.Delete dreq with _ | e1 <;>
      (try cases e2) <;> (try cases e1) <;>
      simp [run, L1L2Orca.Delete, h1, h2, call, IncCounter, bind, Exec.bind, pure, calls]

/-- C17: for each of `Set`, `Add`, `Replace`, `Delete`, `Touch` and `Gat` and
every behaviour of the tiers, one invocation increments the command counter
exactly once and exactly one of the command's aggregate outcome counters,
exactly once; when a tier call fails, the one incremented is an aggregate
error, not-stored or miss counter. -/
theorem aggregate_counter_once (l : L1L2Orca) (req : SetRequest) (dreq : DeleteRequest)
    (treq : TouchRequest) (greq : GATRequest) :
    (counter MetricCmdSet (run (l.Set req)).2 = 1 ∧
      counter MetricCmdSetSuccess (run (l.Set req)).2 +
        counter MetricCmdSetErrors (run (l.Set req)).2 = 1 ∧
      (l.l2.Set req ≠ none ∨ l.l1.Set req ≠ none →
        counter MetricCmdSetErrors (run (l.Set req)).2 = 1)) ∧
    (counter MetricCmdAdd (run (l.Add req)).2 = 1 ∧
      counter MetricCmdAddStored (run (l.Add req)).2 +
        counter MetricCmdAddNotStored (run (l.Add req)).2 +
        counter MetricCmdAddErrors (run (l.Add req)).2 = 1 ∧
      (l.l2.Add req ≠ none ∨ l.l1.Add req ≠ none →
        counter MetricCmdAddNotStored (run (l.Add req)).2 +
          counter MetricCmdAddErrors (run (l.Add req)).2 = 1)) ∧
    (counter MetricCmdReplace (run (l.Replace req)).2 = 1 ∧
      counter MetricCmdReplaceStored (run (l.Replace req)).2 +
        counter MetricCmdReplaceNotStored (run (l.Replace req)).2 +
        counter MetricCmdReplaceErrors (run (l.Replace req)).2 = 1 ∧
      (l.l2.Replace req ≠ none ∨ l.l1.Replace req ≠ none →
        counter MetricCmdReplaceNotStored (run (l.Replace req)).2 +
          counter MetricCmdReplaceErrors (run (l.Replace req)).2 = 1)) ∧
    (counter MetricCmdDelete (run (l.Delete dreq)).2 = 1 ∧
      counter MetricCmdDeleteHits (run (l.Delete dreq)).2 +
        counter MetricCmdDeleteMisses (run (l.Delete dreq)).2 +
        counter MetricCmdDeleteErrors (run (l.Delete dreq)).2 = 1 ∧
      (l.l2.Delete dreq ≠ none ∨ l.l1.Delete dreq ≠ none →
        counter MetricCmdDeleteMisses (run (l.Delete dreq)).2 +
          counter MetricCmdDeleteErrors (run (l.Delete dreq)).2 = 1)) ∧
    (counter MetricCmdTouch (run (l.Touch treq)).2 = 1 ∧
      counter MetricCmdTouchHits (run (l.Touch treq)).2 +
        counter MetricCmdTouchMisses (run (l.Touch treq)).2 = 1 ∧
      (l.l1.Touch treq ≠ none →
        counter MetricCmdTouchMisses (run (l.Touch treq)).2 = 1)) ∧
    (counter MetricCmdGat (run (l.Gat greq)).2 = 1 ∧
      counter MetricCmdGatHits (run (l.Gat greq)).2 +
        counter MetricCmdGatMisses (run (l.Gat greq)).2 +
        counter MetricCmdGatErrors (run (l.Gat greq)).2 = 1 ∧
      ((l.l1.GAT greq).2 ≠ none →
        counter MetricCmdGatErrors (run (l.Gat greq)).2 = 1)) := by
  refine ⟨?_, ?_, ?_, ?_, ?_, ?_⟩
  · rcases h2 : l.l2.Set req with _ | e2 <;> rcases h1 : l.l1.Set req with _ | e1 <;>
      simp [run, L1L2Orca.Set, h1, h2, call, IncCounter, bind, Exec.bind, pure, counter]
  · rcases h2 : l.l2.Add req with _ | e2 <;> rcases h1 : l.l1.Add req with _ | e1 <;>
      (try cases e2) <;> (try cases e1) <;>
      simp [run, L1L2Orca.Add, h1, h2, call, IncCounter, bind, Exec.bind, pure, counter]
  · rcases h2 : l.l2.Replace req with _ | e2 <;> rcases h1 : l.l1.Replace req with _ | e1 <;>
      (try cases e2) <;> (try cases e1) <;>
      simp [run, L1L2Orca.Replace, h1, h2, call, IncCounter, bind, Exec.bind, pure, counter]
  · rcases h2 : l.l2.Delete dreq with _ | e2 <;> rcases h1 : l.l1.Delete dreq with _ | e1 <;>
      (try cases e2) <;> (try cases e1) <;>
      simp [run, L1L2Orca.Delete, h1, h2, call, IncCounter, bind, Exec.bind, pure, counter]
  · rcases h1 : l.l1.Touch treq with _ | e1 <;> (try cases e1) <;>
      simp [run, L1L2Orca.Touch, h1, call, IncCounter, bind, Exec.bind, pure, counter]
  · rcases h1 : l.l1.GAT greq with ⟨r, _ | e1⟩
    · cases hm : r.Miss <;>
        simp [run, L1L2Orca.Gat, h1, hm, call, IncCounter, bind, Exec.bind, pure, counter]
    · simp [run, L1L2Orca.Gat, h1, call, IncCounter, bind, Exec.bind, pure, counter]

/-- Witness of C17: a `Delete` that L2 cannot find increments the command
counter once and one aggregate miss or error counter. -/
theorem aggregate_counter_once_witness :
    counter MetricCmdDelete (run (L1L2Orca.Delete ⟨okHandler,
      constHandler (some Err.ErrKeyNotFound) [] [], okResponder⟩ delA)).2 = 1 ∧
    counter MetricCmdDeleteMisses (run (L1L2Orca.Delete ⟨okHandler,
      constHandler (some Err.ErrKeyNotFound) [] [], okResponder⟩ delA)).2 +
      counter MetricCmdDeleteErrors (run (L1L2Orca.Delete ⟨okHandler,
      constHandler (some Err.ErrKeyNotFound) [] [], okResponder⟩ delA)).2 = 1 :=
  ⟨(aggregate_counter_once ⟨okHandler, constHandler (some Err.ErrKeyNotFound) [] [],
      okResponder⟩ reqA delA touchA gatA).2.2.2.1.1,
    (aggregate_counter_once ⟨okHandler, constHandler (some Err.ErrKeyNotFound) [] [],
      okResponder⟩ reqA delA touchA gatA).2.2.2.1.2.2 (Or.inl (by decide))⟩

/-! ## Replace mirrors Add -/

/-- C18: for every request and all results of the tiers and of the responder,
`Replace` on the renamed results returns the renamed return value of `Add`
and produces the renamed trace of `Add` (calls and counter increments, in
order).  The renaming exchanges `ErrKeyExists` and `ErrKeyNotFound`, so
`ErrKeyNotFound` is not stored and `ErrKeyExists` is an ordinary error for
`Replace`. -/
theorem Replace_mirrors_Add (l : L1L2Orca) (req : SetRequest) :
    run ((renameOrca l).Replace req) = AddRenamed l req ∧
    (∀ e : GoError, renameErr (renameErr e) = e) ∧
    (l.l2.Replace req = none → l.l1.Replace req = some Err.ErrKeyNotFound →
      (run (l.Replace req)).1 = some Err.ErrKeyNotFound ∧
      counter MetricCmdReplaceNotStoredL1 (run (l.Replace req)).2 = 1 ∧
      counter MetricCmdReplaceNotStored (run (l.Replace req)).2 = 1 ∧
      counter MetricCmdReplaceErrors (run (l.Replace req)).2 = 0) ∧
    (l.l2.Replace req = some Err.ErrKeyExists →
      (run (l.Replace req)).1 = some Err.ErrKeyExists ∧
      counter MetricCmdReplaceErrorsL2 (run (l.Replace req)).2 = 1 ∧
      counter MetricCmdReplaceErrors (run (l.Replace req)).2 = 1 ∧
      counter MetricCmdReplaceNotStored (run (l.Replace req)).2 = 0) ∧
    (l.l2.Replace req = none → l.l1.Replace req = some Err.ErrKeyExists →
      (run (l.Replace req)).1 = some Err.ErrKeyExists ∧
      counter MetricCmdReplaceErrorsL1 (run (l.Replace req)).2 = 1 ∧
      counter MetricCmdReplaceErrors (run (l.Replace req)).2 = 1 ∧
      counter MetricCmdReplaceNotStored (run (l.Replace req)).2 = 0) := by
  refine ⟨?_, ?_, ?_, ?_, ?_⟩
  · rcases h2 : l.l2.Add req with _ | e2 <;> rcases h1 : l.l1.Add req with _ | e1 <;>
      (try cases e2) <;> (try cases e1) <;>
      simp [AddRenamed, renameOrca, renameHandler, renameResponder, run, L1L2Orca.Replace,
        L1L2Orca.Add, h1, h2, call, IncCounter, bind, Exec.bind, pure, renameErr,
        renameEvent, renameMetric]
  · intro e
    rcases e with _ | e
    · rfl
    · cases e <;> rfl
  · intro h2 h1
    simp [run, L1L2Orca.Replace, h1, h2, call, IncCounter, bind, Exec.bind, pure, counter]
  · intro h2
    simp [run, L1L2Orca.Replace, h2, call, IncCounter, bind, Exec.bind, pure, counter]
  · intro h2 h1
    simp [run, L1L2Orca.Replace, h1, h2, call, IncCounter, bind, Exec.bind, pure, counter]

/-- Witness of C18: `Replace` counts an `ErrKeyExists` from L2 as an error. -/
theorem Replace_mirrors_Add_witness :
    (constHandler (some Err.ErrKeyExists) [] []).Replace reqA = some Err.ErrKeyExists ∧
    (run (L1L2Orca.Replace ⟨okHandler, constHandler (some Err.ErrKeyExists) [] [],
      okResponder⟩ reqA)).1 = some Err.ErrKeyExists ∧
    counter MetricCmdReplaceErrorsL2 (run (L1L2Orca.Replace ⟨okHandler,
      constHandler (some Err.ErrKeyExists) [] [], okResponder⟩ reqA)).2 = 1 :=
  ⟨rfl,
    ((Replace_mirrors_Add ⟨okHandler, constHandler (some Err.ErrKeyExists) [] [],
      okResponder⟩ reqA).2.2.2.1 rfl).1,
    ((Replace_mirrors_Add ⟨okHandler, constHandler (some Err.ErrKeyExists) [] [],
      okResponder⟩ reqA).2.2.2.1 rfl).2.1⟩

/-! ## Get: independence of the interleaving -/

theorem pendingCount_done (m : Metric) (s : GetLoop)
    (h : s.resChan = none ∧ s.errChan = none) : pendingCount m s = 0 := by
  simp [pendingCount, pendingRes, resCount, h.1, h.2]

/-- One `select` increases a counter by what it takes off the pending amount. -/
theorem selectStep_counter (l : L1L2Orca) (m : Metric) (b : Bool) (s : GetLoop)
    (t : List Event) (h : 0 < remaining s) :
    ∃ s1 t1, selectStep l b s t = (some s1, t1) ∧
      counter m t1 + pendingCount m s1 = counter m t + pendingCount m s := by
  rcases s with ⟨rc, ec, err⟩
  rcases rc with _ | _ | ⟨⟨miss, q, o, f, k, d⟩, rq⟩ <;> rcases ec with _ | _ | ⟨e, eq⟩ <;>
    cases b <;> try cases miss
  all_goals first
    | (simp [remaining, pending] at h; done)
    | refine ⟨_, _, rfl, ?_⟩
  all_goals
    simp [recvRes, recvErr, bind, Exec.bind, pure, IncCounter, call, pendingCount,
      pendingRes, resCount, resEvents, errEvents, counter_append, counter]
  all_goals try ring

/-- Once the loop has returned, each counter has been increased by the amount
pending at the start, whatever the schedule. -/
theorem getLoop_counter (l : L1L2Orca) (m : Metric) (fuel : Nat) :
    ∀ (sched : List Bool) (s : GetLoop) (t : List Event), 0 < remaining s →
      remaining s ≤ fuel →
      counter m (getLoop l fuel sched s t).2 = counter m t + pendingCount m s := by
  induction fuel with
  | zero =>
    intro sched s t h hle
    omega
  | succ fuel ih =>
    intro sched s t h hle
    obtain ⟨s1, t1, hstep, hrem, -, -⟩ := selectStep_spec l (sched.headD true) s t h
    obtain ⟨s1', t1', hstep', hcnt⟩ := selectStep_counter l m (sched.headD true) s t h
    rw [hstep] at hstep'
    obtain ⟨hs, ht⟩ := Prod.mk.inj hstep'
    cases Option.some.inj hs
    cases ht
    by_cases hdone : s1.resChan = none ∧ s1.errChan = none
    · have hunf : getLoop l (fuel + 1) sched s t = (some s1, t1) := by
        simp only [getLoop, bind, Exec.bind, hstep]
        simp [hdone, pure]
      rw [hunf, ← hcnt, pendingCount_done m s1 hdone]
      rfl
    · have hunf : getLoop l (fuel + 1) sched s t = getLoop l fuel sched.tail s1 t1 := by
        simp only [getLoop, bind, Exec.bind, hstep]
        simp [hdone]
      have hpos : 0 < remaining s1 := by
        rcases Nat.eq_zero_or_pos (remaining s1) with h0 | h0
        · exact absurd ((remaining_eq_zero s1).1 h0) hdone
        · exact h0
      rw [hunf, ih sched.tail s1 t1 hpos (by omega), hcnt]

/-- The counters after `Get`: the four increments made before the loop, then
one pair of increments per response and per error value received. -/
theorem Get_counter (l : L1L2Orca) (m : Metric) (sched : List Bool) (fuel : Nat)
    (req : GetRequest) (rs : List GetResponse) (es : List GoError)
    (hget : l.l1.Get req = (rs, es)) (hfuel : rs.length + es.length + 2 ≤ fuel) :
    counter m (run (l.Get sched fuel req)).2 =
      counter m [Event.inc MetricCmdGet 1, Event.inc MetricCmdGetKeys req.Keys.length,
        Event.inc MetricCmdGetL1 1, Event.inc MetricCmdGetKeysL1 req.Keys.length] +
      resCount m rs + es.length * counter m errEvents := by
  simp only [run, L1L2Orca.Get, bind, Exec.bind, IncCounter, IncCounterBy, call, hget]
  generalize ht : (([] : List Event) ++ [Event.inc MetricCmdGet 1] ++
    [Event.inc MetricCmdGetKeys req.Keys.length] ++ [Event.inc MetricCmdGetL1 1] ++
    [Event.inc MetricCmdGetKeysL1 req.Keys.length] ++ [Event.l1 (TierCall.Get req)]) = t0
  have hc0 : counter m t0 = counter m [Event.inc MetricCmdGet 1,
      Event.inc MetricCmdGetKeys req.Keys.length, Event.inc MetricCmdGetL1 1,
      Event.inc MetricCmdGetKeysL1 req.Keys.length] := by
    rw [← ht]
    simp [counter_append, counter]
  have hpos : 0 < remaining ⟨some rs, some es, none⟩ := by simp [remaining, pending]
  have hrem : remaining ⟨some rs, some es, none⟩ = rs.length + es.length + 2 := by
    simp [remaining, pending]; omega
  have hcnt := getLoop_counter l m fuel sched ⟨some rs, some es, none⟩ t0 hpos
    (by rw [hrem]; exact hfuel)
  obtain ⟨s', hs', -, -, -, -⟩ :=
    (getLoop_spec l fuel sched ⟨some rs, some es, none⟩ t0 hpos).2 (by rw [hrem]; exact hfuel)
  have hpc : pendingCount m ⟨some rs, some es, none⟩ =
      resCount m rs + es.length * counter m errEvents := by
    simp [pendingCount, pendingRes]
  rw [hs']
  by_cases hn : s'.err = none
  · simp [hn, call, Exec.bind, pure, counter_append, counter, hcnt, hc0, hpc, Nat.add_assoc]
  · simp [hn, Exec.bind, pure, hcnt, hc0, hpc, Nat.add_assoc]

theorem resCount_hits_misses (rs : List GetResponse) :
    resCount MetricCmdGetHits rs + resCount MetricCmdGetMisses rs = rs.length ∧
    resCount MetricCmdGetHitsL1 rs + resCount MetricCmdGetMissesL1 rs = rs.length ∧
    resCount MetricCmdGetErrors rs = 0 ∧ resCount MetricCmdGetErrorsL1 rs = 0 ∧
    resCount MetricCmdGetKeys rs = 0 ∧ resCount MetricCmdGetKeysL1 rs = 0 := by
  induction rs with
  | nil => simp [resCount]
  | cons r rs ih =>
    obtain ⟨h1, h2, h3, h4, h5, h6⟩ := ih
    cases hm : r.Miss <;>
      simp [resCount, resEvents, hm, counter, h3, h4, h5, h6] <;> omega

/-- C19: let the result stream carry `rs` and the error stream `es`.  Any two
schedules of the `select` give the same return value, the same sequence of
Responder calls and the same increase of every counter.  The return value is
the last value of `es` (nil when `es` is empty); the Responder receives one
`Get` per element of `rs`, in order, then `GetEnd` iff that return value is
nil, which for an error stream of non-nil errors means iff `es` is empty; hits
plus misses equal the length of `rs`, errors the length of `es`, and
`MetricCmdGetKeys` and `MetricCmdGetKeysL1` are increased by `len(req.Keys)`. -/
theorem Get_interleaving_independent (l : L1L2Orca) (req : GetRequest)
    (rs : List GetResponse) (es : List GoError) (sched1 sched2 : List Bool)
    (fuel1 fuel2 : Nat) (hget : l.l1.Get req = (rs, es))
    (h1 : rs.length + es.length + 2 ≤ fuel1) (h2 : rs.length + es.length + 2 ≤ fuel2) :
    (run (l.Get sched1 fuel1 req)).1 = (run (l.Get sched2 fuel2 req)).1 ∧
    resCalls (run (l.Get sched1 fuel1 req)).2 = resCalls (run (l.Get sched2 fuel2 req)).2 ∧
    (∀ m : Metric, counter m (run (l.Get sched1 fuel1 req)).2 =
      counter m (run (l.Get sched2 fuel2 req)).2) ∧
    (run (l.Get sched1 fuel1 req)).1 = some (es.getLast?.getD none) ∧
    resCalls (run (l.Get sched1 fuel1 req)).2 = rs.map ResCall.Get ++
      (if es.getLast?.getD none = none then [ResCall.GetEnd req.NoopOpaque req.NoopEnd]
        else []) ∧
    ((∀ x ∈ es, x ≠ none) →
      resCalls (run (l.Get sched1 fuel1 req)).2 = rs.map ResCall.Get ++
        (if es = [] then [ResCall.GetEnd req.NoopOpaque req.NoopEnd] else [])) ∧
    counter MetricCmdGetHits (run (l.Get sched1 fuel1 req)).2 +
      counter MetricCmdGetMisses (run (l.Get sched1 fuel1 req)).2 = rs.length ∧
    counter MetricCmdGetHitsL1 (run (l.Get sched1 fuel1 req)).2 +
      counter MetricCmdGetMissesL1 (run (l.Get sched1 fuel1 req)).2 = rs.length ∧
    counter MetricCmdGetErrors (run (l.Get sched1 fuel1 req)).2 = es.length ∧
    counter MetricCmdGetErrorsL1 (run (l.Get sched1 fuel1 req)).2 = es.length ∧
    counter MetricCmdGetKeys (run (l.Get sched1 fuel1 req)).2 = req.Keys.length ∧
    counter MetricCmdGetKeysL1 (run (l.Get sched1 fuel1 req)).2 = req.Keys.length := by
  obtain ⟨hret1, hres1⟩ := (Get_spec l sched1 fuel1 req rs es hget).2 h1
  obtain ⟨hret2, hres2⟩ := (Get_spec l sched2 fuel2 req rs es hget).2 h2
  have hc1 := fun m => Get_counter l m sched1 fuel1 req rs es hget h1
  have hc2 := fun m => Get_counter l m sched2 fuel2 req rs es hget h2
  obtain ⟨r1, r2, r3, r4, r5, r6⟩ := resCount_hits_misses rs
  have hlast := lastErr_eq_getLast es none
  refine ⟨by rw [hret1, hret2], by rw [hres1, hres2], fun m => by rw [hc1 m, hc2 m],
    by rw [hret1, hlast], by rw [hres1, hlast], ?_, ?_, ?_, ?_, ?_, ?_, ?_⟩
  · intro hnn
    rw [hres1]
    by_cases he : es = []
    · simp [he, lastErr]
    · simp [he, lastErr_ne_none es hnn he none]
  · rw [hc1, hc1]
    simp [counter, errEvents]
    omega
  · rw [hc1, hc1]
    simp [counter, errEvents]
    omega
  · rw [hc1]
    simp [counter, errEvents, r3]
  · rw [hc1]
    simp [counter, errEvents, r4]
  · rw [hc1]
    simp [counter, errEvents, r5]
  · rw [hc1]
    simp [counter, errEvents, r6]

/-- Witness of C19: the error is received first under one schedule and last
under the other. -/
theorem Get_interleaving_independent_witness :
    (constHandler none [hitA, missB] [some (Err.backend 5)]).Get getAB =
      ([hitA, missB], [some (Err.backend 5)]) ∧
    run (L1L2Orca.Get ⟨constHandler none [hitA, missB] [some (Err.backend 5)], okHandler,
      okResponder⟩ [false, false] 5 getAB) ≠
      run (L1L2Orca.Get ⟨constHandler none [hitA, missB] [some (Err.backend 5)], okHandler,
      okResponder⟩ [true, true, true] 6 getAB) ∧
    (run (L1L2Orca.Get ⟨constHandler none [hitA, missB] [some (Err.backend 5)], okHandler,
      okResponder⟩ [false, false] 5 getAB)).1 =
      (run (L1L2Orca.Get ⟨constHandler none [hitA, missB] [some (Err.backend 5)], okHandler,
      okResponder⟩ [true, true, true] 6 getAB)).1 ∧
    resCalls (run (L1L2Orca.Get ⟨constHandler none [hitA, missB] [some (Err.backend 5)],
      okHandler, okResponder⟩ [false, false] 5 getAB)).2 =
      resCalls (run (L1L2Orca.Get ⟨constHandler none [hitA, missB] [some (Err.backend 5)],
      okHandler, okResponder⟩ [true, true, true] 6 getAB)).2 :=
  ⟨rfl, by decide,
    (Get_interleaving_independent ⟨constHandler none [hitA, missB] [some (Err.backend 5)],
      okHandler, okResponder⟩ getAB [hitA, missB] [some (Err.backend 5)] [false, false]
      [true, true, true] 5 6 rfl (by decide) (by decide)).1,
    (Get_interleaving_independent ⟨constHandler none [hitA, missB] [some (Err.backend 5)],
      okHandler, okResponder⟩ getAB [hitA, missB] [some (Err.backend 5)] [false, false]
      [true, true, true] 5 6 rfl (by decide) (by decide)).2.1⟩

/-! ## What becomes of the Responder's return value -/

/-- C20: on the dual-success path `Set`, `Add`, `Replace` and `Delete` return
exactly the value returned by `Responder.Set`, `Add`, `Replace` and `Delete`.
The value returned by `Touch`, `Gat` and `Get` is the same whatever responder
is plugged in: `Touch` returns what `L1.Touch` returned and `Gat` what `L1.GAT`
returned, so that `Touch` returns nil whenever `L1.Touch` did. -/
theorem responder_error_propagation (l : L1L2Orca) (req : SetRequest) (dreq : DeleteRequest)
    (treq : TouchRequest) (greq : GATRequest) (getreq : GetRequest) :
    (l.l2.Set req = none → l.l1.Set req = none →
      (run (l.Set req)).1 = l.res.Set req.Opaque req.Quiet) ∧
    (l.l2.Add req = none → l.l1.Add req = none →
      (run (l.Add req)).1 = l.res.Add req.Opaque req.Quiet) ∧
    (l.l2.Replace req = none → l.l1.Replace req = none →
      (run (l.Replace req)).1 = l.res.Replace req.Opaque req.Quiet) ∧
    (l.l2.Delete dreq = none → l.l1.Delete dreq = none →
      (run (l.Delete dreq)).1 = l.res.Delete dreq.Opaque) ∧
    (run (l.Touch treq)).1 = l.l1.Touch treq ∧
    (run (l.Gat greq)).1 = (l.l1.GAT greq).2 ∧
    (∀ r : Responder,
      (run (L1L2Orca.Touch ⟨l.l1, l.l2, r⟩ treq)).1 = (run (l.Touch treq)).1 ∧
      (run (L1L2Orca.Gat ⟨l.l1, l.l2, r⟩ greq)).1 = (run (l.Gat greq)).1 ∧
      ∀ (sched : List Bool) (fuel : Nat),
        (run (L1L2Orca.Get ⟨l.l1, l.l2, r⟩ sched fuel getreq)).1 =
          (run (l.Get sched fuel getreq)).1) := by
  have htouch : ∀ k : L1L2Orca, (run (k.Touch treq)).1 = k.l1.Touch treq := by
    intro k
    rcases h1 : k.l1.Touch treq with _ | e1 <;> (try cases e1) <;>
      simp [run, L1L2Orca.Touch, h1, call, IncCounter, bind, Exec.bind, pure]
  have hgat : ∀ k : L1L2Orca, (run (k.Gat greq)).1 = (k.l1.GAT greq).2 := by
    intro k
    rcases h1 : k.l1.GAT greq with ⟨r, _ | e1⟩
    · cases hm : r.Miss <;>
        simp [run, L1L2Orca.Gat, h1, hm, call, IncCounter, bind, Exec.bind, pure]
    · simp [run, L1L2Orca.Gat, h1, call, IncCounter, bind, Exec.bind, pure]
  refine ⟨?_, ?_, ?_, ?_, htouch l, hgat l, fun r => ⟨?_, ?_, fun sched fuel => ?_⟩⟩
  · intro h2 h1
    simp [run, L1L2Orca.Set, h1, h2, call, IncCounter, bind, Exec.bind, pure]
  · intro h2 h1
    simp [run, L1L2Orca.Add, h1, h2, call, IncCounter, bind, Exec.bind, pure]
  · intro h2 h1
    simp [run, L1L2Orca.Replace, h1, h2, call, IncCounter, bind, Exec.bind, pure]
  · intro h2 h1
    simp [run, L1L2Orca.Delete, h1, h2, call, IncCounter, bind, Exec.bind, pure]
  · rw [htouch, htouch]
  · rw [hgat, hgat]
  · rcases hget : l.l1.Get getreq with ⟨rs, es⟩
    obtain ⟨a1, a2⟩ := Get_spec ⟨l.l1, l.l2, r⟩ sched fuel getreq rs es hget
    obtain ⟨b1, b2⟩ := Get_spec l sched fuel getreq rs es hget
    rcases Nat.lt_or_ge fuel (rs.length + es.length + 2) with hlt | hge
    · rw [a1 hlt, b1 hlt]
    · rw [(a2 hge).1, (b2 hge).1]

/-- Witness of C20: `Set` hands back the error of `Responder.Set`. -/
theorem responder_error_propagation_witness :
    okHandler.Set reqA = none ∧
    (run (L1L2Orca.Set ⟨okHandler, okHandler,
      { okResponder with Set := fun _ _ => some (Err.backend 4) }⟩ reqA)).1 =
      some (Err.backend 4) :=
  ⟨rfl,
    (responder_error_propagation ⟨okHandler, okHandler,
      { okResponder with Set := fun _ _ => some (Err.backend 4) }⟩ reqA delA touchA gatA
      getAB).1 rfl rfl⟩

end orcas
